import Mathlib

/-!
Verification of the decision/coordination core of the `monkey` trading-agent
repository, against its natural-language specification. Each module of the
source (agent coordinator, signal engine, technical analysis, whale analysis,
market regime detector, quality filter, sell-condition logic of the base
agent, LLM confirmation fallback, learning system) is embedded shallowly:
JavaScript numbers become `ℚ` (no value in any verified branch depends on
float rounding at a threshold), BigInt becomes `ℤ` with `Int.tdiv` for its
truncating division, `undefined`/`null` become `Option`, and stateful
classes become explicit state passing.
-/

namespace Monkey

/-! ## Agent coordinator (agent-coordinator.ts)

The claim registry is a JavaScript `Map` keyed by the lowercased token
address; it is modelled as an association list in which `mset` replaces any
existing entry for a key, exactly the observable behaviour of `Map.set`.
-/

structure TokenClaim where
  tokenAddress : String
  agentId : String
  agentName : String
  claimedAt : ℤ
  expiresAt : ℤ
  reason : String
  deriving DecidableEq, Repr

abbrev ClaimMap := List (String × TokenClaim)

/-- JavaScript `String.prototype.toLowerCase` on the ASCII token addresses the
coordinator normalizes (defined structurally over the character list so that
concrete instances compute). -/
def toLowerCase (s : String) : String := ⟨s.data.map Char.toLower⟩

/-- `Map.get`: the value of the first (only, for well-formed maps) entry of the key. -/
def mget : ClaimMap → String → Option TokenClaim
  | [], _ => none
  | e :: rest, key => if e.1 = key then some e.2 else mget rest key

/-- `Map.delete`. -/
def mdel (m : ClaimMap) (key : String) : ClaimMap :=
  m.filter (fun e => decide (e.1 ≠ key))

/-- `Map.set`: replace any entry of the key. -/
def mset (m : ClaimMap) (key : String) (c : TokenClaim) : ClaimMap :=
  (key, c) :: mdel m key

/-- Keys are pairwise distinct: every map reachable through the
coordinator's operations satisfies this (a JS `Map` cannot hold a key twice). -/
abbrev ClaimWF (m : ClaimMap) : Prop := (m.map Prod.fst).Nodup

def DEFAULT_LOCK_DURATION : ℤ := 300000
def MAX_LOCK_DURATION : ℤ := 600000

/-- `cleanupExpiredClaims`: drop every entry with `expiresAt < now`. -/
def cleanupExpiredClaims (now : ℤ) (m : ClaimMap) : ClaimMap :=
  m.filter (fun e => decide (¬ (e.2.expiresAt < now)))

/-- The record the fresh-claim path of `claimToken` stores: the requested
duration is clamped to `MAX_LOCK_DURATION`. -/
def freshClaim (addr agentId agentName reason : String) (now durationMs : ℤ) : TokenClaim :=
  { tokenAddress := addr, agentId := agentId, agentName := agentName,
    claimedAt := now, expiresAt := now + min durationMs MAX_LOCK_DURATION,
    reason := reason }

/-- `AgentCoordinator.claimToken`. Returns the boolean result and the updated
claim map. The re-claim path (same agent, unexpired) sets
`expiresAt := now + durationMs` with no clamp, exactly as the source does. -/
def claimToken (m : ClaimMap) (now : ℤ) (tokenAddress agentId agentName reason : String)
    (durationMs : ℤ) : Bool × ClaimMap :=
  let normalizedAddress := toLowerCase tokenAddress
  let m1 := cleanupExpiredClaims now m
  match mget m1 normalizedAddress with
  | some existing =>
    if now ≤ existing.expiresAt then
      if existing.agentId = agentId then
        (true, mset m1 normalizedAddress { existing with expiresAt := now + durationMs })
      else
        (false, m1)
    else
      (true, mset (mdel m1 normalizedAddress) normalizedAddress
        (freshClaim normalizedAddress agentId agentName reason now durationMs))
  | none =>
    (true, mset m1 normalizedAddress
      (freshClaim normalizedAddress agentId agentName reason now durationMs))

/-- `AgentCoordinator.releaseToken`: a no-op when the token is unclaimed or
claimed by a different agent. -/
def releaseToken (m : ClaimMap) (tokenAddress agentId : String) : ClaimMap :=
  let normalizedAddress := toLowerCase tokenAddress
  match mget m normalizedAddress with
  | none => m
  | some existing => if existing.agentId ≠ agentId then m else mdel m normalizedAddress

/-- How many claim records a token address has in the registry. -/
def countKey (m : ClaimMap) (key : String) : ℕ :=
  (m.filter (fun e => decide (e.1 = key))).length

/-! ## Base agent: sell-condition evaluation (base-agent.ts)

`evaluateSellCondition` works on the BigInt cost basis and unrealized PnL
(`ℤ`), the in-memory trailing-stop state, and the hold duration in minutes.
`pnlPercent` is `Number((unrealizedPnl * 10000n) / costBasis) / 100`: BigInt
division truncates toward zero (`Int.tdiv`), and the final division by 100
is exact over `ℚ`.
-/

def STALE_HOLD_MINUTES : ℚ := 90

inductive ExitType
  | part
  | full
  deriving DecidableEq, Repr

/-- The reason strings `evaluateSellCondition` and
`checkStrategyProfitTargets` return, one constructor per template. -/
inductive SellReason
  | noCostBasis
  | profitTarget (label : String)
  | stopLoss
  | trailingStop
  | timeProfit20
  | timeProfit30
  | timeStop40
  | timeStop60
  | stalePosition
  | hold
  deriving DecidableEq, Repr

structure SellDecision where
  sell : Bool
  reason : SellReason
  exitType : ExitType
  deriving DecidableEq, Repr

def holdDecision : SellDecision := ⟨false, .hold, .full⟩

/-- `BaseAgent.checkStrategyProfitTargets`. -/
def checkStrategyProfitTargets (strategy : String) (pnlPercent : ℚ) : SellDecision :=
  if strategy = "sniper" then
    if pnlPercent ≥ 30 then ⟨true, .profitTarget "Snipe moon", .full⟩
    else if pnlPercent ≥ 15 then ⟨true, .profitTarget "Snipe profit", .part⟩
    else holdDecision
  else if strategy = "alpha_hunter" then
    if pnlPercent ≥ 20 then ⟨true, .profitTarget "Alpha moon", .full⟩
    else if pnlPercent ≥ 12 then ⟨true, .profitTarget "Alpha profit", .part⟩
    else holdDecision
  else if strategy = "diamond_hands" then
    if pnlPercent ≥ 60 then ⟨true, .profitTarget "Diamond 60", .full⟩
    else if pnlPercent ≥ 30 then ⟨true, .profitTarget "Diamond big win", .part⟩
    else if pnlPercent ≥ 20 then ⟨true, .profitTarget "Diamond partial", .part⟩
    else holdDecision
  else if strategy = "swing_trader" then
    if pnlPercent ≥ 18 then ⟨true, .profitTarget "Swing target", .full⟩
    else if pnlPercent ≥ 8 then ⟨true, .profitTarget "Swing partial", .part⟩
    else holdDecision
  else if strategy = "degen_ape" then
    if pnlPercent ≥ 60 then ⟨true, .profitTarget "Degen 60", .full⟩
    else if pnlPercent ≥ 30 then ⟨true, .profitTarget "Degen big win", .part⟩
    else if pnlPercent ≥ 15 then ⟨true, .profitTarget "Degen partial", .part⟩
    else holdDecision
  else if strategy = "volume_watcher" then
    if pnlPercent ≥ 20 then ⟨true, .profitTarget "Volume target", .full⟩
    else if pnlPercent ≥ 12 then ⟨true, .profitTarget "Volume partial", .part⟩
    else holdDecision
  else if strategy = "trend_follower" then
    if pnlPercent ≥ 25 then ⟨true, .profitTarget "Trend target", .full⟩
    else if pnlPercent ≥ 12 then ⟨true, .profitTarget "Trend partial", .part⟩
    else holdDecision
  else if strategy = "contrarian" then
    if pnlPercent ≥ 20 then ⟨true, .profitTarget "Contrarian exit", .full⟩
    else if pnlPercent ≥ 12 then ⟨true, .profitTarget "Contrarian partial", .part⟩
    else holdDecision
  else holdDecision

/-- `BaseAgent.getTrailingStopThreshold`. -/
def getTrailingStopThreshold (strategy : String) : ℚ :=
  if strategy = "sniper" then 8
  else if strategy = "alpha_hunter" then 10
  else if strategy = "diamond_hands" then 15
  else if strategy = "swing_trader" then 8
  else if strategy = "degen_ape" then 12
  else if strategy = "volume_watcher" then 10
  else if strategy = "trend_follower" then 10
  else if strategy = "contrarian" then 10
  else 10

/-- In-memory trailing-stop record: peak PnL % since entry. -/
structure TrailingState where
  peakPnlPct : ℚ
  lastUpdated : ℤ
  deriving DecidableEq, Repr

/-- `Number((unrealizedPnl * 10000n) / costBasis) / 100`. -/
def pnlPercentOf (unrealizedPnl costBasis : ℤ) : ℚ :=
  (((unrealizedPnl * 10000).tdiv costBasis : ℤ) : ℚ) / 100

/-- The stop-loss bound of `evaluateSellCondition`: sniper and alpha_hunter
use the tighter -5, the rest -7. -/
def stopLossOf (strategy : String) : ℚ :=
  if strategy = "sniper" ∨ strategy = "alpha_hunter" then -5 else -7

/-- `BaseAgent.evaluateSellCondition`: profit targets first, then the hard
stop-loss, then the trailing stop (armed only once the recorded peak exceeds
5%), then the time-based exits. -/
def evaluateSellCondition (strategy : String) (costBasis unrealizedPnl : ℤ)
    (trailing : TrailingState) (holdDurationMinutes : ℚ) : SellDecision :=
  if costBasis ≤ 0 then ⟨false, .noCostBasis, .full⟩
  else if (checkStrategyProfitTargets strategy (pnlPercentOf unrealizedPnl costBasis)).sell
    then checkStrategyProfitTargets strategy (pnlPercentOf unrealizedPnl costBasis)
  else if pnlPercentOf unrealizedPnl costBasis ≤ stopLossOf strategy then
    ⟨true, .stopLoss, .full⟩
  else if trailing.peakPnlPct > 5 ∧
      trailing.peakPnlPct - pnlPercentOf unrealizedPnl costBasis >
        getTrailingStopThreshold strategy then
    ⟨true, .trailingStop, .full⟩
  else if holdDurationMinutes ≥ 20 ∧ pnlPercentOf unrealizedPnl costBasis ≥ 8 then
    ⟨true, .timeProfit20, .full⟩
  else if holdDurationMinutes ≥ 30 ∧ pnlPercentOf unrealizedPnl costBasis ≥ 3 then
    ⟨true, .timeProfit30, .full⟩
  else if holdDurationMinutes ≥ 40 ∧ pnlPercentOf unrealizedPnl costBasis ≤ -3 then
    ⟨true, .timeStop40, .full⟩
  else if holdDurationMinutes ≥ 60 ∧ pnlPercentOf unrealizedPnl costBasis ≤ -5 then
    ⟨true, .timeStop60, .full⟩
  else if holdDurationMinutes ≥ STALE_HOLD_MINUTES then ⟨true, .stalePosition, .full⟩
  else holdDecision

/-! ## Base agent: partial sells (base-agent.ts, `executeSell`)

A `Holding` carries the token amount and the cost basis, both settlement
fixed-point BigInt. Over a partial sell the source computes
`proportionalCost = (costBasis * sellAmount) / totalBalance` (BigInt floor)
with `totalBalance` the amount before the sale, stores
`remainingCost > 0 ? remainingCost : 0`, and deletes the Holding when the
caller computed `isFullExit = (sellAmount === balance)`.
-/

structure Holding where
  amount : ℤ
  costBasis : ℤ
  deriving DecidableEq, Repr

/-- The cost-basis update of the partial branch of `BaseAgent.executeSell`. -/
def partialRemainingCost (costBasis sellAmount totalBalance : ℤ) : ℤ :=
  let proportionalCost := if 0 < totalBalance then (costBasis * sellAmount).tdiv totalBalance
    else costBasis
  let remainingCost := costBasis - proportionalCost
  if 0 < remainingCost then remainingCost else 0

/-- `BaseAgent.executeSell`'s effect on the Holding, with `isFullExit`
computed at the call site as `sellAmount === balance`: `none` is the deleted
Holding of a full exit. -/
def applySell (h : Holding) (sellAmount : ℤ) : Option Holding :=
  if sellAmount = h.amount then none
  else some ⟨h.amount - sellAmount, partialRemainingCost h.costBasis sellAmount h.amount⟩

/-- Unrealized PnL percentage a Holding implies at a given mark price. -/
def impliedPnlPct (price : ℚ) (amount costBasis : ℤ) : ℚ :=
  ((price * (amount : ℚ) - (costBasis : ℚ)) / (costBasis : ℚ)) * 100

/-! ## Learning system (learning-system.ts) -/

/-- The per-agent learning profile, as `getAgentLearningProfile` derives it
from trade history. Only the fields the sizing logic reads are carried. -/
structure AgentLearningProfile where
  totalTrades : ℤ
  wins : ℤ
  losses : ℤ
  winRate : ℚ
  netPnL : ℚ
  confidenceThreshold : ℚ
  positionSize : ℚ
  maxPositions : ℤ
  deriving Repr

/-- `getRecommendedPositionSize`: scale the adaptive base size by
`0.5 + confidence / 100`, clamped to the 2-15 MON range. -/
def getRecommendedPositionSize (profile : AgentLearningProfile) (confidence : ℚ) : ℚ :=
  let baseSize := profile.positionSize
  let confidenceMultiplier := 1 / 2 + confidence / 100
  min 15 (max 2 (baseSize * confidenceMultiplier))

/-! ## Technical indicators (technical-analysis.ts)

The indicator functions run over the parsed price/volume series (`List ℚ`).
`null` sentinels become `none`.
-/

inductive VolumeTrend
  | increasing
  | decreasing
  | stable
  deriving DecidableEq, Repr

/-- `calculateRSI`: Wilder average gain/loss over the last `period` changes;
`none` when fewer than `period + 1` prices; 100 when the average loss is 0. -/
def calculateRSI (prices : List ℚ) (period : ℕ := 14) : Option ℚ :=
  if prices.length < period + 1 then none
  else
    let changes := (prices.zip prices.tail).map (fun pq => pq.2 - pq.1)
    let recentChanges := changes.drop (changes.length - period)
    let avgGain := ((recentChanges.filter (fun c => decide (0 < c))).sum) / (period : ℚ)
    let avgLoss := (((recentChanges.filter (fun c => decide (¬ 0 < c))).map
      (fun c => |c|)).sum) / (period : ℚ)
    if avgLoss = 0 then some 100
    else some (100 - 100 / (1 + avgGain / avgLoss))

/-- `calculateSMA`. -/
def calculateSMA (prices : List ℚ) (period : ℕ) : Option ℚ :=
  if prices.length < period then none
  else some ((prices.drop (prices.length - period)).sum / (period : ℚ))

/-- `calculateEMA`: seeded with the first-window SMA, then the standard
recurrence with multiplier `2 / (period + 1)`. -/
def calculateEMA (prices : List ℚ) (period : ℕ) : Option ℚ :=
  if prices.length < period then none
  else
    let multiplier : ℚ := 2 / ((period : ℚ) + 1)
    let seed := (prices.take period).sum / (period : ℚ)
    some ((prices.drop period).foldl (fun ema p => (p - ema) * multiplier + ema) seed)

/-- `calculateVWAP`: Σ(price·volume)/Σ(volume); `none` on empty input or zero
cumulative volume. -/
def calculateVWAP (prices volumes : List ℚ) : Option ℚ :=
  if prices.isEmpty ∨ volumes.isEmpty then none
  else
    let cumPriceVolume := ((prices.zip volumes).map (fun pv => pv.1 * pv.2)).sum
    let cumVolume := (volumes.take prices.length).sum
    if cumVolume = 0 then none else some (cumPriceVolume / cumVolume)

/-- The variance the source computes before taking the square root: sample
returns over positive previous prices, then the mean squared deviation.
`none` when fewer than 3 prices, or when no return could be formed. -/
def calculateVolatilityVar (prices : List ℚ) : Option ℚ :=
  if prices.length < 3 then none
  else
    let rets := ((prices.zip prices.tail).filter (fun pq => decide (0 < pq.1))).map
      (fun pq => (pq.2 - pq.1) / pq.1)
    if rets.isEmpty then none
    else
      let mean := rets.sum / (rets.length : ℚ)
      some ((rets.map (fun r => (r - mean) ^ 2)).sum / (rets.length : ℚ))

/-- `calculateVolatility`: the standard deviation, i.e. the square root of
`calculateVolatilityVar`. -/
noncomputable def calculateVolatility (prices : List ℚ) : Option ℝ :=
  (calculateVolatilityVar prices).map (fun v => Real.sqrt (v : ℝ))

/-- `getVolumeTrend`: mean of the last 3 samples against the prior 3 with a
±20% band; returns `"stable"` (not a sentinel) when fewer than 4 samples. -/
def getVolumeTrend (volumes : List ℚ) : VolumeTrend :=
  if volumes.length < 4 then .stable
  else
    let recent := volumes.drop (volumes.length - 3)
    let prior := (volumes.take (volumes.length - 3)).drop (volumes.length - 6)
    if prior.isEmpty then .stable
    else
      let recentAvg := recent.sum / (recent.length : ℚ)
      let priorAvg := prior.sum / (prior.length : ℚ)
      if priorAvg = 0 then (if 0 < recentAvg then .increasing else .stable)
      else
        let change := (recentAvg - priorAvg) / priorAvg
        if 1 / 5 < change then .increasing
        else if change < -(1 / 5) then .decreasing
        else .stable

/-- Claim C9's statement for the volume-trend classifier: some dedicated
sentinel value is returned on every too-short input and never on an
adequately long input, so that a caller can distinguish "insufficient data"
from a computed result. -/
def volumeTrendSentinelProperty : Prop :=
  ∃ s : VolumeTrend,
    (∀ vs : List ℚ, vs.length < 4 → getVolumeTrend vs = s) ∧
    (∀ vs : List ℚ, 4 ≤ vs.length → getVolumeTrend vs ≠ s)

/-! ## Market regime detector (market-regime.ts)

`detectMarketRegime` takes the batch of (token, market-data-or-null) pairs.
Averages of an empty filtered list are NaN in the source; every comparison
against NaN is false, which the model captures with `Option ℚ` averages and
comparisons that are false on `none` (`obGt`/`obLt`). The per-threshold
human-readable reason strings are dropped (only the final REGIME line and
the insufficient-data reason are kept); no claim concerns them. -/

inductive Regime
  | bull
  | bear
  | sideways
  deriving DecidableEq, Repr

structure RegimeMarketData where
  price_change_1h : Option ℚ
  price_change_24h : Option ℚ
  volume_24h : ℚ
  deriving Repr

structure RegimePair where
  created_at : ℤ
  market : Option RegimeMarketData
  deriving Repr

structure RegimeAnalysis where
  regime : Regime
  confidence : ℤ
  avgPriceChange1h : Option ℚ
  avgPriceChange24h : Option ℚ
  positiveTokenPct : Option ℚ
  avgVolume : ℚ
  newTokenRate : ℤ
  reasons : List String
  deriving Repr

/-- The pairs that carry market data (`tokenDataPairs.filter(p => p.market !== null)`). -/
def withMarketList (pairs : List RegimePair) : List (RegimePair × RegimeMarketData) :=
  pairs.filterMap (fun p => p.market.map (fun m => (p, m)))

/-- Average of a list, `none` (NaN) when the list is empty. -/
def avgQ (l : List ℚ) : Option ℚ :=
  if l.isEmpty then none else some (l.sum / (l.length : ℚ))

/-- `x > c` with NaN-like behaviour: false on `none`. -/
def obGt (o : Option ℚ) (c : ℚ) : Bool :=
  match o with
  | some x => decide (c < x)
  | none => false

/-- `x < c` with NaN-like behaviour: false on `none`. -/
def obLt (o : Option ℚ) (c : ℚ) : Bool :=
  match o with
  | some x => decide (x < c)
  | none => false

structure RegimeAgg where
  avg1h : Option ℚ
  avg24h : Option ℚ
  breadth : Option ℚ
  avgVolume : ℚ
  newTokenRate : ℤ
  deriving Repr

/-- The aggregate metrics of `detectMarketRegime`: outlier-filtered average
1h/24h changes, percent-positive breadth, average volume in MON, and the
count of tokens created within the last hour. -/
def regimeAgg (now : ℤ) (pairs : List RegimePair) : RegimeAgg :=
  let wm := withMarketList pairs
  let priceChanges1h := (wm.map (fun pm => pm.2.price_change_1h.getD 0)).filter
    (fun c => decide (|c| < 500))
  let priceChanges24h := (wm.map (fun pm => pm.2.price_change_24h.getD 0)).filter
    (fun c => decide (|c| < 1000))
  let volumes := wm.map (fun pm => pm.2.volume_24h / (10 : ℚ) ^ 18)
  { avg1h := avgQ priceChanges1h
    avg24h := avgQ priceChanges24h
    breadth := if priceChanges1h.isEmpty then none else
      some ((((priceChanges1h.filter (fun c => decide (0 < c))).length : ℚ) /
        (priceChanges1h.length : ℚ)) * 100)
    avgVolume := volumes.sum / (volumes.length : ℚ)
    newTokenRate := ((pairs.filter (fun p => decide (now - p.created_at < 3600))).length : ℤ) }

/-- The independent bull/bear point totals from the fixed thresholds. -/
def regimeScores (now : ℤ) (pairs : List RegimePair) : ℤ × ℤ :=
  let a := regimeAgg now pairs
  let pt : ℤ × ℤ := if obGt a.avg1h 5 then (30, 0)
    else if obLt a.avg1h (-5) then (0, 30) else (0, 0)
  let pt24 : ℤ × ℤ := if obGt a.avg24h 10 then (20, 0)
    else if obLt a.avg24h (-10) then (0, 20) else (0, 0)
  let br : ℤ × ℤ := if obGt a.breadth 65 then (25, 0)
    else if obLt a.breadth 35 then (0, 25) else (0, 0)
  let vp : ℤ × ℤ := if 50000 < a.avgVolume then (10, 0)
    else if a.avgVolume < 100 then (0, 5) else (0, 0)
  let nt : ℤ × ℤ := if 20 < a.newTokenRate then (15, 0)
    else if a.newTokenRate < 5 then (0, 10) else (0, 0)
  (pt.1 + pt24.1 + br.1 + vp.1 + nt.1, pt.2 + pt24.2 + br.2 + vp.2 + nt.2)

/-- The fixed result for fewer than 5 tokens with market data. -/
def insufficientRegime : RegimeAnalysis :=
  { regime := .sideways, confidence := 20, avgPriceChange1h := some 0,
    avgPriceChange24h := some 0, positiveTokenPct := some 50, avgVolume := 0,
    newTokenRate := 0, reasons := ["Insufficient data for regime detection"] }

/-- `detectMarketRegime`. -/
def detectMarketRegime (now : ℤ) (pairs : List RegimePair) : RegimeAnalysis :=
  if (withMarketList pairs).length < 5 then insufficientRegime
  else
    let a := regimeAgg now pairs
    let s := regimeScores now pairs
    if s.2 + 15 < s.1 then
      { regime := .bull, confidence := min 90 (50 + s.1 - s.2),
        avgPriceChange1h := a.avg1h, avgPriceChange24h := a.avg24h,
        positiveTokenPct := a.breadth, avgVolume := a.avgVolume,
        newTokenRate := a.newTokenRate, reasons := ["REGIME: Bull market detected"] }
    else if s.1 + 15 < s.2 then
      { regime := .bear, confidence := min 90 (50 + s.2 - s.1),
        avgPriceChange1h := a.avg1h, avgPriceChange24h := a.avg24h,
        positiveTokenPct := a.breadth, avgVolume := a.avgVolume,
        newTokenRate := a.newTokenRate, reasons := ["REGIME: Bear market detected"] }
    else
      { regime := .sideways, confidence := max 30 (70 - |s.1 - s.2|),
        avgPriceChange1h := a.avg1h, avgPriceChange24h := a.avg24h,
        positiveTokenPct := a.breadth, avgVolume := a.avgVolume,
        newTokenRate := a.newTokenRate, reasons := ["REGIME: Sideways/choppy market"] }

/-- The confidence formula the claim states: `clamp(50 + |bull − bear|, 30, 90)`. -/
def claimedConfidence (b r : ℤ) : ℤ := max 30 (min 90 (50 + |b - r|))

/-- A batch entry for the C5 counterexample: created now, 1000 MON of
volume, flat 24h, the given 1h change. -/
def c5pair (p1 : ℚ) : RegimePair := ⟨10000, some ⟨some p1, some 0, 1000 * (10 : ℚ) ^ 18⟩⟩

/-- Five tokens with market data whose aggregate hits no scoring threshold:
both scores 0. -/
def c5batch : List RegimePair :=
  [c5pair 1, c5pair 1, c5pair (-1), c5pair (-1), c5pair (-1)]

/-! ## Shared market data shapes (nadfun api)

String-typed numeric API fields (prices, reserves, volumes in wei) are
carried as their parsed numeric value over `ℚ`; a field whose string may be
missing or unparseable (volume, the optional percent changes) is an
`Option ℚ` with `none` for `undefined`/NaN. JavaScript truthiness checks
`x && x > c` on numbers become `truthyAnd` helpers (false on `none` and on
`0`).
-/

structure TokenInfo where
  token_id : String
  name : String
  symbol : String
  created_at : ℤ
  deriving Repr

structure MarketInfo where
  market_type : String
  reserve_native : ℚ
  price : ℚ
  price_native : ℚ
  total_supply : String
  volume : ℚ
  holder_count : ℤ
  deriving Repr

structure RecentToken where
  token_info : TokenInfo
  market_info : Option MarketInfo
  percent : Option ℚ
  percent_1h : Option ℚ
  deriving Repr

structure TokenMarketData where
  price : ℚ
  market_cap : ℚ
  volume_24h : Option ℚ
  price_change_1h : Option ℚ
  price_change_24h : Option ℚ
  holder_count : Option ℤ
  is_graduated : Option Bool
  deriving Repr

def truthyQ : Option ℚ → Bool
  | none => false
  | some x => decide (x ≠ 0)

def truthyAndQ (o : Option ℚ) (f : ℚ → Bool) : Bool :=
  match o with
  | none => false
  | some x => decide (x ≠ 0) && f x

def truthyAndZ (o : Option ℤ) (f : ℤ → Bool) : Bool :=
  match o with
  | none => false
  | some x => decide (x ≠ 0) && f x

/-! ## Technical indicator summary and score adjustment (technical-analysis.ts) -/

inductive Crossover
  | bullish
  | bearish
  | neutral
  deriving DecidableEq, Repr

structure TechnicalIndicators where
  rsi : Option ℚ
  smaShort : Option ℚ
  smaLong : Option ℚ
  emaShort : Option ℚ
  emaLong : Option ℚ
  vwap : Option ℚ
  currentPrice : ℚ
  priceVsVwap : Option ℚ
  smaCrossover : Crossover
  emaCrossover : Crossover
  volatility : Option ℚ
  volumeTrend : VolumeTrend
  momentum : Option ℚ
  deriving Repr

/-- `technicalScoreAdjustment`: strategy-weighted adjustment from the
indicator summary, clamped to [-30, 30]. Reason strings are kept static
(without the interpolated numbers). -/
def technicalScoreAdjustment (ta : TechnicalIndicators) (strategy : String) :
    ℤ × List String :=
  if ¬ (truthyQ ta.rsi || truthyQ ta.vwap || truthyQ ta.smaShort) then
    (0, ["Insufficient chart data for TA"])
  else
    let rsiAdj : ℤ × List String :=
      match ta.rsi with
      | none => (0, [])
      | some rsi =>
        if strategy = "contrarian" then
          if rsi < 25 then (20, ["RSI deeply oversold - contrarian buy"])
          else if rsi < 35 then (10, ["RSI oversold"])
          else if 75 < rsi then (-15, ["RSI overbought - avoid buying"])
          else (0, [])
        else if strategy = "trend_follower" ∨ strategy = "swing_trader" then
          if 40 ≤ rsi ∧ rsi ≤ 65 then (10, ["RSI in momentum zone"])
          else if 80 < rsi then (-15, ["RSI overbought - overextended"])
          else if rsi < 25 then (-10, ["RSI deeply oversold - no momentum"])
          else (0, [])
        else
          if 80 < rsi then (-10, ["RSI overbought"])
          else if rsi < 25 then (5, ["RSI oversold"])
          else (0, [])
    let emaAdj : ℤ × List String :=
      if ta.emaCrossover ≠ Crossover.neutral then
        if strategy = "trend_follower" ∨ strategy = "swing_trader" then
          if ta.emaCrossover = Crossover.bullish then
            (15, ["EMA bullish crossover (short over long)"])
          else (-15, ["EMA bearish crossover (short under long)"])
        else
          if ta.emaCrossover = Crossover.bullish then (8, ["EMA bullish signal"])
          else (-8, ["EMA bearish signal"])
      else (0, [])
    let vwapAdj : ℤ × List String :=
      match ta.priceVsVwap with
      | none => (0, [])
      | some pv =>
        if strategy = "contrarian" then
          if pv < -5 then (10, ["Price below VWAP - undervalued"]) else (0, [])
        else if strategy = "volume_watcher" ∨ strategy = "trend_follower" then
          if 3 < pv then (8, ["Price above VWAP - buyers in control"])
          else if pv < -5 then (-5, ["Price below VWAP"])
          else (0, [])
        else (0, [])
    let volTrendAdj : ℤ × List String :=
      if ta.volumeTrend = VolumeTrend.increasing then
        if strategy = "volume_watcher" then (12, ["Volume trending up - confirming move"])
        else (5, ["Increasing volume"])
      else if ta.volumeTrend = VolumeTrend.decreasing then
        if strategy = "volume_watcher" then (-10, ["Volume declining - weak conviction"])
        else (-3, ["Declining volume"])
      else (0, [])
    let momAdj : ℤ × List String :=
      match ta.momentum with
      | none => (0, [])
      | some mom =>
        if strategy = "alpha_hunter" ∨ strategy = "degen_ape" then
          if 15 < mom then (10, ["Strong momentum"]) else (0, [])
        else if strategy = "contrarian" then
          if mom < -15 then (10, ["Dropping fast - reversion opportunity"]) else (0, [])
        else (0, [])
    let volatAdj : ℤ × List String :=
      match ta.volatility with
      | none => (0, [])
      | some v =>
        if strategy = "swing_trader" then
          if 1 / 10 < v then (8, ["High volatility - swing opportunity"]) else (0, [])
        else if strategy = "diamond_hands" then
          if 1 / 5 < v then (-8, ["Too volatile for long hold"]) else (0, [])
        else (0, [])
    (max (-30) (min 30
        (rsiAdj.1 + emaAdj.1 + vwapAdj.1 + volTrendAdj.1 + momAdj.1 + volatAdj.1)),
      rsiAdj.2 ++ emaAdj.2 ++ vwapAdj.2 ++ volTrendAdj.2 ++ momAdj.2 ++ volatAdj.2)

/-! ## Whale analysis summary and score adjustment (whale-analysis.ts) -/

inductive Concentration
  | high
  | moderate
  | distributed
  deriving DecidableEq, Repr

structure WhaleAnalysis where
  totalHolders : ℤ
  top1Pct : ℚ
  top5Pct : ℚ
  top10Pct : ℚ
  whaleCount : ℤ
  microHolders : ℤ
  concentration : Concentration
  hasLargeWhale : Bool
  deriving Repr

/-- `whaleScoreAdjustment`: strategy-weighted adjustment from the holder
distribution, clamped to [-20, 20]. -/
def whaleScoreAdjustment (wa : WhaleAnalysis) (strategy : String) : ℤ × List String :=
  if wa.totalHolders = 0 then (0, ["No holder data available"])
  else
    let holderAdj : ℤ × List String :=
      if 50 < wa.totalHolders then (8, ["Strong holder base"])
      else if 20 < wa.totalHolders then (4, ["Decent holder count"])
      else if wa.totalHolders < 5 then (-10, ["Very few holders - high risk"])
      else (0, [])
    let whaleAdj : ℤ × List String :=
      if wa.hasLargeWhale then
        if strategy = "degen_ape" then (-3, ["Whale alert"])
        else (-12, ["Whale concentration risk"])
      else (0, [])
    let concAdj : ℤ × List String :=
      if wa.concentration = Concentration.distributed then
        if strategy = "diamond_hands" then (12, ["Well distributed - healthy for long hold"])
        else (6, ["Distributed holder base"])
      else if wa.concentration = Concentration.high then
        if strategy ≠ "degen_ape" ∧ strategy ≠ "alpha_hunter" then
          (-8, ["High concentration"])
        else (0, [])
      else (0, [])
    let smartAdj : ℤ × List String :=
      if 3 ≤ wa.whaleCount ∧ wa.whaleCount ≤ 6 ∧ wa.concentration ≠ Concentration.high then
        (5, ["Multiple whales showing interest"])
      else (0, [])
    let microAdj : ℤ × List String :=
      if 30 < wa.microHolders then (5, ["Strong organic growth"]) else (0, [])
    (max (-20) (min 20 (holderAdj.1 + whaleAdj.1 + concAdj.1 + smartAdj.1 + microAdj.1)),
      holderAdj.2 ++ whaleAdj.2 ++ concAdj.2 ++ smartAdj.2 ++ microAdj.2)

/-- `regimeStrategyBonus`: the fixed regime × strategy lookup table;
the reason string is empty exactly when the adjustment is 0. -/
def regimeStrategyBonus (regime : Regime) (strategy : String) : ℤ × String :=
  let adj : ℤ :=
    match regime with
    | .bull =>
      if strategy = "alpha_hunter" then 10
      else if strategy = "degen_ape" then 15
      else if strategy = "trend_follower" then 12
      else if strategy = "volume_watcher" then 8
      else if strategy = "swing_trader" then 5
      else if strategy = "diamond_hands" then 5
      else if strategy = "sniper" then 8
      else if strategy = "contrarian" then -10
      else 0
    | .bear =>
      if strategy = "contrarian" then 15
      else if strategy = "diamond_hands" then -5
      else if strategy = "alpha_hunter" then -10
      else if strategy = "degen_ape" then -15
      else if strategy = "trend_follower" then -10
      else if strategy = "volume_watcher" then -5
      else if strategy = "swing_trader" then 5
      else if strategy = "sniper" then -5
      else 0
    | .sideways =>
      if strategy = "swing_trader" then 10
      else if strategy = "contrarian" then 5
      else if strategy = "volume_watcher" then 5
      else if strategy = "trend_follower" then -5
      else 0
  (adj, if adj ≠ 0 then "regime bonus for strategy" else "")

/-! ## Signal engine (signal-engine.ts) -/

structure TokenContext where
  token : RecentToken
  market : Option TokenMarketData
  curveProgress : Option ℚ
  ageSeconds : ℤ
  technical : Option TechnicalIndicators
  whaleData : Option WhaleAnalysis
  regime : Option Regime
  deriving Repr

/-- `volumeToMon`: wei string to MON; 0 for a missing, zero or unparseable
value. -/
def volumeToMon (raw : Option ℚ) : ℚ :=
  match raw with
  | none => 0
  | some wei => if wei = 0 then 0 else wei / (10 : ℚ) ^ 18

structure SignalMetrics where
  age : ℤ
  price : ℚ
  volume24h : Option ℚ
  volumeMon : ℚ
  priceChange1h : ℚ
  priceChange24h : ℚ
  holderCount : ℤ
  curveProgress : ℚ
  rsi : Option ℚ
  emaCrossover : Option Crossover
  vwap : Option ℚ
  volumeTrend : Option VolumeTrend
  holderConcentration : Option Concentration
  top5HolderPct : Option ℚ
  marketRegime : Option Regime
  deriving Repr

structure MarketSignal where
  tokenAddress : String
  tokenSymbol : String
  tokenName : String
  score : ℤ
  reasons : List String
  metrics : SignalMetrics
  deriving Repr

/-- `buildSignal`: the final signal object; the score is clamped to
[0, 100]. -/
def buildSignal (ctx : TokenContext) (score : ℤ) (reasons : List String) : MarketSignal :=
  { tokenAddress := ctx.token.token_info.token_id
    tokenSymbol := ctx.token.token_info.symbol
    tokenName := ctx.token.token_info.name
    score := max 0 (min 100 score)
    reasons := reasons
    metrics :=
      { age := ctx.ageSeconds
        price := (ctx.market.map (·.price)).getD 0
        volume24h := ctx.market.bind (·.volume_24h)
        volumeMon := volumeToMon (ctx.market.bind (·.volume_24h))
        priceChange1h := (ctx.market.bind (·.price_change_1h)).getD 0
        priceChange24h := (ctx.market.bind (·.price_change_24h)).getD 0
        holderCount := (ctx.market.bind (·.holder_count)).getD 0
        curveProgress := ctx.curveProgress.getD 0
        rsi := ctx.technical.bind (·.rsi)
        emaCrossover := ctx.technical.map (·.emaCrossover)
        vwap := ctx.technical.bind (·.vwap)
        volumeTrend := ctx.technical.map (·.volumeTrend)
        holderConcentration := ctx.whaleData.map (·.concentration)
        top5HolderPct := ctx.whaleData.map (·.top5Pct)
        marketRegime := ctx.regime } }

/-- `baseScore`: the shared foundation - base 35, volume tier, holder tier,
1h momentum, base-weighted technical and whale adjustments; 5 with no
market data. -/
def baseScore (ctx : TokenContext) : ℤ × List String :=
  match ctx.market with
  | none => (5, ["No market data available"])
  | some market =>
    let vol := volumeToMon market.volume_24h
    let volAdj : ℤ × List String :=
      if 10000000 < vol then (15, ["Massive volume"])
      else if 1000000 < vol then (10, ["Strong volume"])
      else if 100000 < vol then (6, ["Good volume"])
      else if 10000 < vol then (2, ["Low volume"])
      else (0, [])
    let holderAdj : ℤ × List String :=
      if truthyAndZ market.holder_count (fun h => decide (100 < h)) then
        (10, ["Strong holder base"])
      else if truthyAndZ market.holder_count (fun h => decide (30 < h)) then
        (6, ["Decent holders"])
      else if truthyAndZ market.holder_count (fun h => decide (10 < h)) then
        (3, ["Some holders"])
      else (0, [])
    let momAdj : ℤ × List String :=
      if truthyAndQ market.price_change_1h (fun c => decide (5 < c)) then
        (5, ["Upward momentum"])
      else if truthyAndQ market.price_change_1h (fun c => decide (c < -10)) then
        (-10, ["Dumping"])
      else (0, [])
    let taAdj : ℤ × List String :=
      match ctx.technical with
      | some ta => technicalScoreAdjustment ta "base"
      | none => (0, [])
    let waAdj : ℤ × List String :=
      match ctx.whaleData with
      | some wa => whaleScoreAdjustment wa "base"
      | none => (0, [])
    (35 + volAdj.1 + holderAdj.1 + momAdj.1 + taAdj.1 + waAdj.1,
      volAdj.2 ++ holderAdj.2 ++ momAdj.2 ++ taAdj.2 ++ waAdj.2)

/-- `strategyOverlay`: strategy-weighted technical/whale adjustments plus
the regime bonus, on top of an accumulated score. -/
def strategyOverlay (ctx : TokenContext) (strategy : String) (score : ℤ)
    (reasons : List String) : ℤ × List String :=
  let taAdj : ℤ × List String :=
    match ctx.technical with
    | some ta => technicalScoreAdjustment ta strategy
    | none => (0, [])
  let waAdj : ℤ × List String :=
    match ctx.whaleData with
    | some wa => whaleScoreAdjustment wa strategy
    | none => (0, [])
  let rb : ℤ × String :=
    match ctx.regime with
    | some regime => regimeStrategyBonus regime strategy
    | none => (0, "")
  (score + taAdj.1 + waAdj.1 + rb.1,
    reasons ++ taAdj.2 ++ waAdj.2 ++ (if rb.2 ≠ "" then [rb.2] else []))

def ctxVol (ctx : TokenContext) : ℚ := volumeToMon (ctx.market.bind (·.volume_24h))

def ctxHolders (ctx : TokenContext) : ℤ := (ctx.market.bind (·.holder_count)).getD 0

def ctxPc1h (ctx : TokenContext) : Option ℚ := ctx.market.bind (·.price_change_1h)

def ctxPc24h (ctx : TokenContext) : Option ℚ := ctx.market.bind (·.price_change_24h)

def ctxGraduated (ctx : TokenContext) : Bool :=
  (ctx.market.bind (·.is_graduated)).getD false

/-- `scoreSniper`'s accumulation before `buildSignal`. -/
def sniperRaw (ctx : TokenContext) : ℤ × List String :=
  let base := baseScore ctx
  let vol := ctxVol ctx
  let holders := ctxHolders ctx
  let ageAdj : ℤ × List String :=
    if ctx.ageSeconds < 120 then
      if 5000 < vol then (30, ["Ultra-fresh token - prime snipe"])
      else if 500 < vol then (20, ["Fresh launch - initial buying"])
      else if 100 < vol then (10, ["Very new with small activity"])
      else (0, [])
    else if ctx.ageSeconds < 300 then
      if 20000 < vol ∧ 5 < holders then (25, ["New token with strong interest"])
      else if 5000 < vol ∧ 3 < holders then (15, ["New token with holders"])
      else if 1000 < vol then (5, ["Recently launched with some activity"])
      else (0, [])
    else if ctx.ageSeconds < 600 then
      if 50000 < vol ∧ 10 < holders then (15, ["Early token with confirmed demand"])
      else (0, [])
    else (-20, ["Token too old for sniping"])
  let holderAdj : ℤ × List String :=
    if 8 < holders ∧ ctx.ageSeconds < 180 then (15, ["Rapid holder growth"])
    else if 5 < holders ∧ ctx.ageSeconds < 300 then (8, ["Growing holders"])
    else (0, [])
  let curveAdj : ℤ × List String :=
    match ctx.curveProgress with
    | some cp =>
      if ctx.ageSeconds < 600 then
        if 10 < cp / 100 then (12, ["Strong curve progress"])
        else if 3 < cp / 100 then (6, ["Early curve progress"])
        else (0, [])
      else (0, [])
    | none => (0, [])
  let priceAdj : ℤ × List String :=
    if truthyAndQ (ctxPc1h ctx) (fun c => decide (0 < c)) ∧ ctx.ageSeconds < 600 then
      (5, ["Positive price since launch"])
    else (0, [])
  strategyOverlay ctx "sniper"
    (base.1 + ageAdj.1 + holderAdj.1 + curveAdj.1 + priceAdj.1)
    (base.2 ++ ageAdj.2 ++ holderAdj.2 ++ curveAdj.2 ++ priceAdj.2)

def scoreSniper (ctx : TokenContext) : MarketSignal :=
  buildSignal ctx (sniperRaw ctx).1 (sniperRaw ctx).2

/-- `scoreAlphaHunter`'s accumulation before `buildSignal`. -/
def alphaHunterRaw (ctx : TokenContext) : ℤ × List String :=
  let base := baseScore ctx
  let vol := ctxVol ctx
  let holders := ctxHolders ctx
  let winAdj : ℤ × List String :=
    if 120 ≤ ctx.ageSeconds ∧ ctx.ageSeconds < 300 ∧ 10000 < vol then
      (25, ["Alpha window"])
    else if 300 ≤ ctx.ageSeconds ∧ ctx.ageSeconds < 900 ∧ 50000 < vol then
      (15, ["Early token with volume proof"])
    else if ctx.ageSeconds < 120 ∧ 2000 < vol then (15, ["Very new with activity"])
    else if 1800 < ctx.ageSeconds then (-15, ["Token too old for alpha hunting"])
    else (0, [])
  let holderAdj : ℤ × List String :=
    if 10 < holders ∧ ctx.ageSeconds < 600 then (10, ["Fast adoption"]) else (0, [])
  let volPriceAdj : ℤ × List String :=
    if 50000 < vol ∧ truthyAndQ (ctxPc1h ctx) (fun c => decide (5 < c)) then
      (10, ["Volume-backed pump"])
    else (0, [])
  strategyOverlay ctx "alpha_hunter" (base.1 + winAdj.1 + holderAdj.1 + volPriceAdj.1)
    (base.2 ++ winAdj.2 ++ holderAdj.2 ++ volPriceAdj.2)

def scoreAlphaHunter (ctx : TokenContext) : MarketSignal :=
  buildSignal ctx (alphaHunterRaw ctx).1 (alphaHunterRaw ctx).2

/-- `scoreDiamondHands`'s accumulation before `buildSignal`. -/
def diamondHandsRaw (ctx : TokenContext) : ℤ × List String :=
  let base := baseScore ctx
  let vol := ctxVol ctx
  let holders := ctxHolders ctx
  let ageAdj : ℤ × List String :=
    if 3600 < ctx.ageSeconds then (10, ["Established token (1h+)"])
    else (-10, ["Too young for diamond hands"])
  let holderAdj : ℤ × List String :=
    if 200 < holders then (15, ["Excellent holder base"])
    else if 50 < holders then (8, ["Good holder count"])
    else if holders < 20 then (-10, ["Insufficient holders for long hold"])
    else (0, [])
  let volAdj : ℤ × List String :=
    if 5000000 < vol then (12, ["Very high volume"])
    else if 500000 < vol then (8, ["Consistent volume"])
    else if vol < 50000 then (-5, ["Weak volume for long hold"])
    else (0, [])
  let p24Adj : ℤ × List String :=
    if truthyAndQ (ctxPc24h ctx) (fun c => decide (0 < c)) then
      (8, ["Positive 24h trend"])
    else (0, [])
  let p1Adj : ℤ × List String :=
    if truthyAndQ (ctxPc1h ctx) (fun c => decide (0 < c)) then
      (5, ["Positive 1h trend"])
    else (0, [])
  let gradAdj : ℤ × List String :=
    if ctxGraduated ctx then (10, ["Graduated to DEX - proven demand"]) else (0, [])
  strategyOverlay ctx "diamond_hands"
    (base.1 + ageAdj.1 + holderAdj.1 + volAdj.1 + p24Adj.1 + p1Adj.1 + gradAdj.1)
    (base.2 ++ ageAdj.2 ++ holderAdj.2 ++ volAdj.2 ++ p24Adj.2 ++ p1Adj.2 ++ gradAdj.2)

def scoreDiamondHands (ctx : TokenContext) : MarketSignal :=
  buildSignal ctx (diamondHandsRaw ctx).1 (diamondHandsRaw ctx).2

/-- `scoreSwingTrader`'s accumulation before `buildSignal`. -/
def swingTraderRaw (ctx : TokenContext) : ℤ × List String :=
  let base := baseScore ctx
  let vol := ctxVol ctx
  let liqAdj : ℤ × List String :=
    if vol < 100000 then (-10, ["Insufficient liquidity for swing trade"])
    else if 1000000 < vol then (8, ["Good liquidity"])
    else (0, [])
  let swingAdj : ℤ × List String :=
    match ctxPc1h ctx with
    | none => (0, [])
    | some c =>
      if c = 0 then (0, [])
      else if 15 < c then (20, ["Strong upswing"])
      else if 5 < c then (12, ["Moderate upswing"])
      else if c < -5 then (-15, ["Downswing - not buying"])
      else (0, [])
  let confirmAdj : ℤ × List String :=
    if truthyAndQ (ctxPc1h ctx) (fun c => decide (5 < c)) ∧ 500000 < vol then
      (10, ["Volume-confirmed price swing"])
    else (0, [])
  strategyOverlay ctx "swing_trader" (base.1 + liqAdj.1 + swingAdj.1 + confirmAdj.1)
    (base.2 ++ liqAdj.2 ++ swingAdj.2 ++ confirmAdj.2)

def scoreSwingTrader (ctx : TokenContext) : MarketSignal :=
  buildSignal ctx (swingTraderRaw ctx).1 (swingTraderRaw ctx).2

def memeWords : List String :=
  ["meme", "pepe", "doge", "moon", "ape", "chad", "wojak", "based", "giga",
   "monkey", "cat", "dog", "frog", "nyan", "shib", "bonk", "cope", "wagmi"]

/-- `scoreDegenApe`'s accumulation before `buildSignal`. -/
def degenApeRaw (ctx : TokenContext) : ℤ × List String :=
  let base := baseScore ctx
  let vol := ctxVol ctx
  let holders := ctxHolders ctx
  let freshAdj : ℤ × List String :=
    if ctx.ageSeconds < 600 ∧ 10000 < vol ∧ 5 < holders then
      (15, ["Fresh active token - aping in"])
    else (0, [])
  let memeAdj : ℤ × List String :=
    if memeWords.any
        (fun w => decide (w.data <:+: (toLowerCase ctx.token.token_info.name).data)) then
      (8, ["Meme vibes detected"])
    else (0, [])
  let pumpAdj : ℤ × List String :=
    if truthyAndQ (ctxPc1h ctx) (fun c => decide (30 < c)) ∧ 1000000 < vol then
      (20, ["Volume-backed moon"])
    else if truthyAndQ (ctxPc1h ctx) (fun c => decide (15 < c)) ∧ 100000 < vol then
      (12, ["Pumping with volume"])
    else if truthyAndQ (ctxPc1h ctx) (fun c => decide (10 < c)) ∧ 50000 < vol then
      (5, ["Pumping"])
    else (0, [])
  let holderAdj : ℤ × List String :=
    if 20 < holders ∧ ctx.ageSeconds < 1800 then (8, ["Organic growth"]) else (0, [])
  strategyOverlay ctx "degen_ape" (base.1 + freshAdj.1 + memeAdj.1 + pumpAdj.1 + holderAdj.1)
    (base.2 ++ freshAdj.2 ++ memeAdj.2 ++ pumpAdj.2 ++ holderAdj.2)

def scoreDegenApe (ctx : TokenContext) : MarketSignal :=
  buildSignal ctx (degenApeRaw ctx).1 (degenApeRaw ctx).2

/-- `scoreVolumeWatcher`'s accumulation before `buildSignal`. -/
def volumeWatcherRaw (ctx : TokenContext) : ℤ × List String :=
  let base := baseScore ctx
  let vol := ctxVol ctx
  let tierAdj : ℤ × List String :=
    if 50000000 < vol then (25, ["Massive volume tier"])
    else if 5000000 < vol then (18, ["Very high volume tier"])
    else if 1000000 < vol then (12, ["Strong volume tier"])
    else if 100000 < vol then (5, ["Moderate volume tier"])
    else (0, [])
  let confirmAdj : ℤ × List String :=
    if truthyAndQ (ctxPc1h ctx) (fun c => decide (5 < c)) ∧ 1000000 < vol then
      (15, ["Volume-confirmed price increase"])
    else (0, [])
  let sustainAdj : ℤ × List String :=
    if truthyAndQ (ctxPc24h ctx) (fun c => decide (0 < c)) ∧ 5000000 < vol then
      (8, ["Sustained volume with positive 24h trend"])
    else (0, [])
  strategyOverlay ctx "volume_watcher" (base.1 + tierAdj.1 + confirmAdj.1 + sustainAdj.1)
    (base.2 ++ tierAdj.2 ++ confirmAdj.2 ++ sustainAdj.2)

def scoreVolumeWatcher (ctx : TokenContext) : MarketSignal :=
  buildSignal ctx (volumeWatcherRaw ctx).1 (volumeWatcherRaw ctx).2

/-- `scoreTrendFollower`'s accumulation before `buildSignal`. -/
def trendFollowerRaw (ctx : TokenContext) : ℤ × List String :=
  let base := baseScore ctx
  let vol := ctxVol ctx
  let liqAdj : ℤ × List String :=
    if vol < 100000 then (-8, ["Low liquidity for trend following"]) else (0, [])
  let p1Adj : ℤ × List String :=
    if truthyAndQ (ctxPc1h ctx) (fun c => decide (10 < c)) then (18, ["Strong 1h trend"])
    else if truthyAndQ (ctxPc1h ctx) (fun c => decide (3 < c)) then (8, ["Positive 1h"])
    else (0, [])
  let p24Adj : ℤ × List String :=
    if truthyAndQ (ctxPc24h ctx) (fun c => decide (20 < c)) then (12, ["Strong 24h trend"])
    else if truthyAndQ (ctxPc24h ctx) (fun c => decide (5 < c)) then (6, ["Positive 24h"])
    else (0, [])
  let alignAdj : ℤ × List String :=
    if truthyAndQ (ctxPc1h ctx) (fun c => decide (3 < c)) ∧
        truthyAndQ (ctxPc24h ctx) (fun c => decide (0 < c)) then
      (12, ["Multi-timeframe trend alignment"])
    else (0, [])
  let downAdj : ℤ × List String :=
    if truthyAndQ (ctxPc1h ctx) (fun c => decide (c < -5)) then
      (-20, ["Downtrend - avoiding"])
    else (0, [])
  strategyOverlay ctx "trend_follower"
    (base.1 + liqAdj.1 + p1Adj.1 + p24Adj.1 + alignAdj.1 + downAdj.1)
    (base.2 ++ liqAdj.2 ++ p1Adj.2 ++ p24Adj.2 ++ alignAdj.2 ++ downAdj.2)

def scoreTrendFollower (ctx : TokenContext) : MarketSignal :=
  buildSignal ctx (trendFollowerRaw ctx).1 (trendFollowerRaw ctx).2

/-- `scoreContrarian`'s accumulation before `buildSignal`. -/
def contrarianRaw (ctx : TokenContext) : ℤ × List String :=
  let base := baseScore ctx
  let vol := ctxVol ctx
  let holders := ctxHolders ctx
  let liqAdj : ℤ × List String :=
    if vol < 100000 ∨ holders < 20 then
      (-20, ["Insufficient liquidity or holders for contrarian play"])
    else (0, [])
  let dipAdj : ℤ × List String :=
    if truthyAndQ (ctxPc1h ctx) (fun c => decide (c < -15)) ∧ 50 < holders then
      (25, ["Deeply oversold quality token"])
    else if truthyAndQ (ctxPc1h ctx) (fun c => decide (c < -8)) ∧ 20 < holders then
      (15, ["Dipping with holder base"])
    else if truthyAndQ (ctxPc1h ctx) (fun c => decide (c < -5)) ∧ 15 < holders then
      (8, ["Minor dip"])
    else (0, [])
  let recovAdj : ℤ × List String :=
    if truthyAndQ (ctxPc24h ctx) (fun c => decide (c < -20)) ∧
        truthyAndQ (ctxPc1h ctx) (fun c => decide (0 < c)) then
      (20, ["Recovery after dump - mean reversion play"])
    else (0, [])
  let pumpAdj : ℤ × List String :=
    if truthyAndQ (ctxPc1h ctx) (fun c => decide (30 < c)) then
      (-15, ["Overpumped - would sell, not buy"])
    else (0, [])
  let gradAdj : ℤ × List String :=
    if ctxGraduated ctx ∧ 500000 < vol then
      (8, ["Graduated token on dip - higher recovery chance"])
    else (0, [])
  strategyOverlay ctx "contrarian"
    (base.1 + liqAdj.1 + dipAdj.1 + recovAdj.1 + pumpAdj.1 + gradAdj.1)
    (base.2 ++ liqAdj.2 ++ dipAdj.2 ++ recovAdj.2 ++ pumpAdj.2 ++ gradAdj.2)

def scoreContrarian (ctx : TokenContext) : MarketSignal :=
  buildSignal ctx (contrarianRaw ctx).1 (contrarianRaw ctx).2

/-- `STRATEGY_SCORERS`: the strategy-string to scorer dispatch table. -/
def STRATEGY_SCORERS : List (String × (TokenContext → MarketSignal)) :=
  [("alpha_hunter", scoreAlphaHunter),
   ("diamond_hands", scoreDiamondHands),
   ("swing_trader", scoreSwingTrader),
   ("degen_ape", scoreDegenApe),
   ("volume_watcher", scoreVolumeWatcher),
   ("trend_follower", scoreTrendFollower),
   ("contrarian", scoreContrarian),
   ("sniper", scoreSniper)]

/-- An adversarial context for the C1 witness: no market data at all (so
zero volume and zero holders), age 0, no indicators, no whale data, no
regime. -/
def c1AdversarialCtx : TokenContext :=
  { token := ⟨⟨"0xdead", "t", "T", 0⟩, none, none, none⟩
    market := none
    curveProgress := none
    ageSeconds := 0
    technical := none
    whaleData := none
    regime := none }

/-! ## LLM trade confirmation (llm-confirm.ts)

`confirmTradeWithLLM` wraps the remote call in try/catch; the model takes
the outcome of that call as a value: `failed` for a thrown error or
timeout, `noContent` for an empty response, `parsed` for a parsed JSON
body. Only the catch branch's deterministic fallback consults the raw
signal score. -/

structure LLMDecision where
  approved : Bool
  reasoning : String
  deriving DecidableEq, Repr

inductive LLMCallOutcome
  | failed
  | noContent
  | parsed (approved : Bool) (reasoning : Option String)
  deriving DecidableEq, Repr

/-- `confirmTradeWithLLM`'s decision as a function of the call outcome. The
catch branch returns `approved := signal.score ≥ 85`. -/
def confirmTradeWithLLM (signal : MarketSignal) (outcome : LLMCallOutcome) : LLMDecision :=
  match outcome with
  | .noContent => ⟨false, "No LLM response received"⟩
  | .parsed approved reasoning => ⟨approved, reasoning.getD "No reasoning provided"⟩
  | .failed => ⟨decide (85 ≤ signal.score),
      "LLM unavailable - fallback decision based on signal score"⟩

def c6Metrics : SignalMetrics :=
  ⟨0, 0, none, 0, 0, 0, 0, 0, none, none, none, none, none, none, none⟩

def c6Signal (score : ℤ) : MarketSignal := ⟨"0xt", "T", "t", score, [], c6Metrics⟩

/-! ## Quality filter (quality-filter.ts) -/

structure QualityCheckResult where
  passed : Bool
  reason : Option String
  score : ℤ
  deriving DecidableEq, Repr

/-- `checkTokenQuality`: hard gates (market data present, reserve ≥ 3 MON,
holders ≥ 30, age ≥ 2h, positive price, not dumping > 15%), then the 0-100
quality score with its 60-point floor. `now` is `floor(Date.now() / 1000)`.
Reason strings are kept static (without the interpolated numbers). -/
def checkTokenQuality (now : ℤ) (token : RecentToken) : QualityCheckResult :=
  match token.market_info with
  | none => ⟨false, some "No market data", 0⟩
  | some market =>
    let reserve := market.reserve_native / (10 : ℚ) ^ 18
    if reserve < 3 then ⟨false, some "Insufficient liquidity", 0⟩
    else
      let holders := market.holder_count
      if holders < 30 then ⟨false, some "Too few holders", 0⟩
      else
        let ageSeconds := now - token.token_info.created_at
        let ageHours : ℚ := (ageSeconds : ℚ) / 3600
        if ageHours < 2 then ⟨false, some "Too young", 0⟩
        else
          let price := market.price
          if price ≤ 0 then ⟨false, some "Invalid price", 0⟩
          else
            let priceChange1h := token.percent.getD 0
            let priceAdj : Option ℤ :=
              if 10 < priceChange1h then some 20
              else if 0 < priceChange1h then some 10
              else if -5 < priceChange1h then some 5
              else if -15 < priceChange1h then some (-10)
              else none
            match priceAdj with
            | none => ⟨false, some "Dumping hard", 0⟩
            | some pAdj =>
              let holderAdj : ℤ :=
                if 500 < holders then 15
                else if 200 < holders then 10
                else if 100 < holders then 5
                else 0
              let liqAdj : ℤ :=
                if 100 < reserve then 15
                else if 50 < reserve then 10
                else if 25 < reserve then 5
                else 0
              let ageAdj : ℤ := if 72 < ageHours then 10 else if 24 < ageHours then 5 else 0
              let volume24h := market.volume / (10 : ℚ) ^ 18
              let volOverReserve := volume24h / reserve
              let volAdj : ℤ :=
                if 20 < volOverReserve then -15
                else if 5 < volOverReserve ∧ volOverReserve ≤ 10 then 10
                else if 2 < volOverReserve ∧ volOverReserve ≤ 5 then 5
                else 0
              let score := max 0 (min 100 (50 + pAdj + holderAdj + liqAdj + ageAdj + volAdj))
              if score < 60 then ⟨false, some "Low quality score", score⟩
              else ⟨true, none, score⟩

/-! ## The per-token scan pipeline of `BaseAgent.scanAndBuy` (base-agent.ts)

The loop body up to the scorer invocation, as a function from one token's
inputs to `some ctx` (the scorer is invoked on `ctx`) or `none` (a
`continue` skipped the token). External lookups that feed the filters
(blacklist membership, dead-token blacklist, the cached market fallback,
curve progress, chart/holder enrichment, the specialization window) enter
as parameters. -/

structure ScanInputs where
  token : RecentToken
  blacklisted : Bool
  deadBlacklisted : Bool
  cachedMarket : Option TokenMarketData
  curveProgress : Option ℚ
  technical : Option TechnicalIndicators
  whaleData : Option WhaleAnalysis
  windowAllowed : Bool
  deriving Repr

/-- The inline `market_info` to `TokenMarketData` conversion of the scan
loop (`price_native`, `percent_1h ?? 0`, `percent ?? 0`, `holder_count ?? 0`,
`market_type === "DEX"`). -/
def marketFromInfo (token : RecentToken) (m : MarketInfo) : TokenMarketData :=
  { price := m.price_native
    market_cap := m.reserve_native
    volume_24h := some m.volume
    price_change_1h := some ((token.percent_1h).getD 0)
    price_change_24h := some ((token.percent).getD 0)
    holder_count := some m.holder_count
    is_graduated := some (decide (m.market_type = "DEX")) }

/-- One iteration of the scan loop, up to (and excluding) the scorer call:
`some ctx` exactly when every filter passed and `scorer(ctx)` is invoked. -/
def scanStep (now : ℤ) (strategy : String) (inp : ScanInputs) : Option TokenContext :=
  if inp.blacklisted then none
  else
    let market : Option TokenMarketData :=
      match inp.token.market_info with
      | some m => some (marketFromInfo inp.token m)
      | none => inp.cachedMarket
    match market with
    | none => none
    | some market =>
      if inp.deadBlacklisted then none
      else if ¬ (checkTokenQuality now inp.token).passed then none
      else if market.price ≤ 0 then none
      else
        let vol24hMon := volumeToMon market.volume_24h
        let minVolume : ℚ := if strategy = "sniper" ∨ strategy = "alpha_hunter" then 100
          else 1000
        if vol24hMon < minVolume then none
        else if market.holder_count.isSome ∧ (market.holder_count.getD 0) < 30 then none
        else if strategy ≠ "contrarian" ∧ (market.price_change_1h.getD 0) < -20 then none
        else
          let ageSeconds := now - inp.token.token_info.created_at
          if ¬ inp.windowAllowed then none
          else some
            { token := inp.token, market := some market,
              curveProgress := inp.curveProgress, ageSeconds := ageSeconds,
              technical := inp.technical, whaleData := inp.whaleData, regime := none }

/-- The spec's C7 scenario market: 10 MON reserve, 5 holders, healthy
price, on the bonding curve. -/
def c7Market : MarketInfo :=
  ⟨"CURVE", 10 * (10 : ℚ) ^ 18, 1 / 1000, 1 / 1000, "1000000", 0, 5⟩

/-- The spec's C7 scenario token, created at time 0 (30 minutes before the
scan at `now = 1800`). -/
def c7Token : RecentToken := ⟨⟨"0xc7", "tok", "TOK", 0⟩, some c7Market, some 0, some 0⟩

/-! ## Theorems: association-list and arithmetic lemmas, then the claim
theorems, counterexamples and witnesses. -/

theorem mget_eq_none_of_all (m : ClaimMap) (k : String) (h : ∀ e ∈ m, e.1 ≠ k) :
    mget m k = none := by
  induction m with
  | nil => rfl
  | cons e rest ih =>
    have hne : e.1 ≠ k := h e (List.mem_cons_self ..)
    simp only [mget, if_neg hne]
    exact ih fun x hx => h x (List.mem_cons_of_mem _ hx)

theorem mget_filter_eq_none (m : ClaimMap) (k : String) (p : String × TokenClaim → Bool)
    (h : mget m k = none) : mget (m.filter p) k = none := by
  induction m with
  | nil => rfl
  | cons e rest ih =>
    simp only [mget] at h
    by_cases hk : e.1 = k
    · simp [hk] at h
    · simp only [if_neg hk] at h
      simp only [List.filter]
      cases hp : p e with
      | true => simpa [mget, hk] using ih h
      | false => exact ih h

theorem mget_filter_wf (m : ClaimMap) (k : String) (c : TokenClaim)
    (p : String × TokenClaim → Bool) (hwf : ClaimWF m) (h : mget m k = some c) :
    mget (m.filter p) k = if p (k, c) then some c else none := by
  induction m with
  | nil => simp [mget] at h
  | cons e rest ih =>
    have hwf' : ClaimWF rest := (List.nodup_cons.mp hwf).2
    by_cases hk : e.1 = k
    · have hc : e.2 = c := by simpa [mget, hk] using h
      have hrest : mget rest k = none := by
        apply mget_eq_none_of_all
        intro x hx hxk
        have hmem : e.1 ∈ rest.map Prod.fst := by
          rw [hk, ← hxk]
          exact List.mem_map_of_mem Prod.fst hx
        exact (List.nodup_cons.mp hwf).1 hmem
      have he : e = (k, c) := Prod.ext hk hc
      subst he
      simp only [List.filter]
      cases hp : p (k, c) with
      | true => simp [mget, hp]
      | false => simp [hp, mget_filter_eq_none rest k p hrest]
    · have h' : mget rest k = some c := by simpa [mget, hk] using h
      simp only [List.filter]
      cases hp : p e with
      | true => simpa [mget, hk] using ih hwf' h'
      | false => exact ih hwf' h'

theorem mget_mset_self (m : ClaimMap) (k : String) (c : TokenClaim) :
    mget (mset m k c) k = some c := by
  simp [mset, mget]

theorem mget_mdel_self (m : ClaimMap) (k : String) : mget (mdel m k) k = none := by
  apply mget_eq_none_of_all
  intro e he
  have := List.of_mem_filter he
  simpa using this

theorem countKey_mset (m : ClaimMap) (k : String) (c : TokenClaim) :
    countKey (mset m k c) k = 1 := by
  have hz : (mdel m k).filter (fun e => decide (e.1 = k)) = [] := by
    rw [List.filter_eq_nil_iff]
    intro e he
    have := List.of_mem_filter he
    simpa using this
  simp [countKey, mset, List.filter, hz]

theorem claimToken_free (m : ClaimMap) (now : ℤ) (tok aId aN r : String) (d : ℤ)
    (h : mget (cleanupExpiredClaims now m) (toLowerCase tok) = none) :
    claimToken m now tok aId aN r d =
      (true, mset (cleanupExpiredClaims now m) (toLowerCase tok)
        (freshClaim (toLowerCase tok) aId aN r now d)) := by
  unfold claimToken
  simp [h]

theorem claimToken_blocked (m : ClaimMap) (now : ℤ) (tok aId aN r : String) (d : ℤ)
    (c : TokenClaim) (hlk : mget (cleanupExpiredClaims now m) (toLowerCase tok) = some c)
    (hvalid : now ≤ c.expiresAt) (hne : c.agentId ≠ aId) :
    claimToken m now tok aId aN r d = (false, cleanupExpiredClaims now m) := by
  unfold claimToken
  simp [hlk, hvalid, hne]

theorem claimToken_reclaim (m : ClaimMap) (now : ℤ) (tok aId aN r : String) (d : ℤ)
    (c : TokenClaim) (hlk : mget (cleanupExpiredClaims now m) (toLowerCase tok) = some c)
    (hvalid : now ≤ c.expiresAt) (heq : c.agentId = aId) :
    claimToken m now tok aId aN r d =
      (true, mset (cleanupExpiredClaims now m) (toLowerCase tok) { c with expiresAt := now + d }) := by
  unfold claimToken
  simp [hlk, hvalid, heq]

theorem releaseToken_owner (m : ClaimMap) (tok : String) (c : TokenClaim)
    (hlk : mget m (toLowerCase tok) = some c) :
    releaseToken m tok c.agentId = mdel m (toLowerCase tok) := by
  unfold releaseToken
  simp [hlk]

theorem cleanup_mset_head (m : ClaimMap) (key : String) (c : TokenClaim) (t2 : ℤ)
    (h : ¬ (c.expiresAt < t2)) :
    cleanupExpiredClaims t2 (mset m key c) =
      (key, c) :: cleanupExpiredClaims t2 (mdel m key) := by
  simp [cleanupExpiredClaims, mset, List.filter, h]

/-- Claim C2: with the token free, agent A's claim succeeds and an immediate
claim by a different agent B before expiry returns false; after A releases,
B's claim returns true; a token whose recorded claim has expired is
reclaimable by any agent; and a re-claim by the original holder before
expiry (same requested duration, strictly later time) returns true, leaves
exactly one claim record for the token, and moves `expiresAt` out to
`t2 + d`, strictly past the old expiry. -/
theorem C2_claim_coordinator (m : ClaimMap) (c : TokenClaim) (now t2 d d2 : ℤ)
    (tok A B nA nB rA rB : String) :
    (mget (cleanupExpiredClaims now m) (toLowerCase tok) = none → A ≠ B →
      t2 ≤ now + min d MAX_LOCK_DURATION →
      (claimToken m now tok A nA rA d).1 = true ∧
      (claimToken (claimToken m now tok A nA rA d).2 t2 tok B nB rB d2).1 = false) ∧
    (mget (cleanupExpiredClaims now m) (toLowerCase tok) = none →
      (claimToken (releaseToken (claimToken m now tok A nA rA d).2 tok A) t2
        tok B nB rB d2).1 = true) ∧
    (ClaimWF m → mget m (toLowerCase tok) = some c → c.expiresAt < t2 →
      (claimToken m t2 tok B nB rB d2).1 = true) ∧
    (mget (cleanupExpiredClaims now m) (toLowerCase tok) = none → now < t2 →
      t2 ≤ now + min d MAX_LOCK_DURATION →
      (claimToken (claimToken m now tok A nA rA d).2 t2 tok A nA rA d).1 = true ∧
      mget (claimToken (claimToken m now tok A nA rA d).2 t2 tok A nA rA d).2 (toLowerCase tok) =
        some ⟨toLowerCase tok, A, nA, now, t2 + d, rA⟩ ∧
      countKey (claimToken (claimToken m now tok A nA rA d).2 t2 tok A nA rA d).2
        (toLowerCase tok) = 1 ∧
      now + min d MAX_LOCK_DURATION < t2 + d) := by
  set key := (toLowerCase tok) with hkey
  set m1 := cleanupExpiredClaims now m with hm1
  set cA := freshClaim key A nA rA now d with hcA
  have hcA_exp : cA.expiresAt = now + min d MAX_LOCK_DURATION := rfl
  have hcA_id : cA.agentId = A := rfl
  refine ⟨?_, ?_, ?_, ?_⟩
  · -- P1: the second agent is blocked while the claim is unexpired
    intro hfree hAB ht2
    have hr1 : claimToken m now tok A nA rA d = (true, mset m1 key cA) :=
      claimToken_free m now tok A nA rA d hfree
    refine ⟨by rw [hr1], ?_⟩
    have hunexp : ¬ (cA.expiresAt < t2) := by rw [hcA_exp]; omega
    have hclean : cleanupExpiredClaims t2 (mset m1 key cA) =
        (key, cA) :: cleanupExpiredClaims t2 (mdel m1 key) :=
      cleanup_mset_head m1 key cA t2 hunexp
    have hlk : mget (cleanupExpiredClaims t2 (mset m1 key cA)) key = some cA := by
      rw [hclean]; simp [mget]
    have hblk := claimToken_blocked (mset m1 key cA) t2 tok B nB rB d2 cA hlk
      (by rw [hcA_exp]; omega) (by rw [hcA_id]; exact hAB)
    rw [hr1, hblk]
  · -- P2: release by the holder makes the token claimable again
    intro hfree
    have hr1 : claimToken m now tok A nA rA d = (true, mset m1 key cA) :=
      claimToken_free m now tok A nA rA d hfree
    have hrel : releaseToken (mset m1 key cA) tok A = mdel (mset m1 key cA) key := by
      have := releaseToken_owner (mset m1 key cA) tok cA (mget_mset_self m1 key cA)
      rwa [hcA_id] at this
    have hnone : mget (cleanupExpiredClaims t2 (mdel (mset m1 key cA) key)) key = none :=
      mget_filter_eq_none _ key _ (mget_mdel_self (mset m1 key cA) key)
    have := claimToken_free (mdel (mset m1 key cA) key) t2 tok B nB rB d2 hnone
    rw [hr1, hrel, this]
  · -- P3: an expired claim is reclaimable by any agent
    intro hwf hlk hexp
    have hnone : mget (cleanupExpiredClaims t2 m) key = none := by
      have := mget_filter_wf m key c (fun e => decide (¬ (e.2.expiresAt < t2))) hwf hlk
      rw [cleanupExpiredClaims, this]
      simp [hexp]
    rw [claimToken_free m t2 tok B nB rB d2 hnone]
  · -- P4: re-claim by the holder extends the expiry, one record only
    intro hfree hlt ht2
    have hr1 : claimToken m now tok A nA rA d = (true, mset m1 key cA) :=
      claimToken_free m now tok A nA rA d hfree
    have hunexp : ¬ (cA.expiresAt < t2) := by rw [hcA_exp]; omega
    have hclean : cleanupExpiredClaims t2 (mset m1 key cA) =
        (key, cA) :: cleanupExpiredClaims t2 (mdel m1 key) :=
      cleanup_mset_head m1 key cA t2 hunexp
    have hlk : mget (cleanupExpiredClaims t2 (mset m1 key cA)) key = some cA := by
      rw [hclean]; simp [mget]
    have hrc := claimToken_reclaim (mset m1 key cA) t2 tok A nA rA d cA hlk
      (by rw [hcA_exp]; omega) hcA_id
    have hmin : min d MAX_LOCK_DURATION ≤ d := min_le_left d MAX_LOCK_DURATION
    refine ⟨by rw [hr1, hrc], ?_, ?_, by omega⟩
    · rw [hr1, hrc]
      exact mget_mset_self _ key _
    · rw [hr1, hrc]
      exact countKey_mset _ key _

/-- Claim C2 witness: the four parts at concrete inputs (empty registry,
agents "a" and "b", token "t", the default 5-minute duration; an expired
record for the third part). -/
theorem C2_claim_coordinator_witness :
    ((claimToken [] 0 "t" "a" "A" "r" 300000).1 = true ∧
      (claimToken (claimToken [] 0 "t" "a" "A" "r" 300000).2 1 "t" "b" "B" "r" 300000).1
        = false) ∧
    ((claimToken (releaseToken (claimToken [] 0 "t" "a" "A" "r" 300000).2 "t" "a") 1
        "t" "b" "B" "r" 300000).1 = true) ∧
    ((claimToken [("t", ⟨"t", "x", "X", -10, -1, "r"⟩)] 1 "t" "b" "B" "r" 300000).1
      = true) ∧
    ((claimToken (claimToken [] 0 "t" "a" "A" "r" 300000).2 1 "t" "a" "A" "r" 300000).1
        = true ∧
      mget (claimToken (claimToken [] 0 "t" "a" "A" "r" 300000).2 1 "t" "a" "A" "r"
          300000).2 (toLowerCase "t") =
        some ⟨toLowerCase "t", "a", "A", 0, 1 + 300000, "r"⟩ ∧
      countKey (claimToken (claimToken [] 0 "t" "a" "A" "r" 300000).2 1 "t" "a" "A" "r"
          300000).2 (toLowerCase "t") = 1 ∧
      (0 : ℤ) + min 300000 MAX_LOCK_DURATION < 1 + 300000) := by
  have h := C2_claim_coordinator [] ⟨"t", "x", "X", -10, -1, "r"⟩
    0 1 300000 300000 "t" "a" "b" "A" "B" "r" "r"
  have h3 := C2_claim_coordinator [("t", ⟨"t", "x", "X", -10, -1, "r"⟩)]
    ⟨"t", "x", "X", -10, -1, "r"⟩
    0 1 300000 300000 "t" "a" "b" "A" "B" "r" "r"
  exact ⟨h.1 (by decide) (by decide) (by decide),
    h.2.1 (by decide),
    h3.2.2.1 (by decide) (by decide) (by decide),
    h.2.2.2 (by decide) (by decide) (by decide)⟩

/-- Claim C8: the hard cap is not applied on the re-claim path. A same-agent
re-claim with a requested duration of 20 minutes sets `expiresAt` to
`now + 1200000`, which exceeds `now + MAX_LOCK_DURATION` (the 10-minute cap
the fresh-claim path enforces): the code contradicts its own
`MAX_LOCK_DURATION` constant on this path. -/
theorem C8_reclaim_exceeds_cap :
    ((mget (claimToken (claimToken [] 0 "t" "a" "A" "r" 300000).2 0 "t" "a" "A" "r"
        1200000).2 (toLowerCase "t")).map TokenClaim.expiresAt) = some 1200000 ∧
    (1200000 : ℤ) > 0 + MAX_LOCK_DURATION := by
  constructor
  · have hfree : mget (cleanupExpiredClaims 0 ([] : ClaimMap)) (toLowerCase "t") = none := by
      decide
    have hr1 := claimToken_free [] 0 "t" "a" "A" "r" 300000 hfree
    rw [hr1]
    have hlk : mget (cleanupExpiredClaims 0
        (mset (cleanupExpiredClaims 0 []) (toLowerCase "t")
          (freshClaim (toLowerCase "t") "a" "A" "r" 0 300000))) (toLowerCase "t") =
        some (freshClaim (toLowerCase "t") "a" "A" "r" 0 300000) := by
      decide
    have hrc := claimToken_reclaim _ 0 "t" "a" "A" "r" 1200000 _ hlk (by decide) (by decide)
    rw [hrc, mget_mset_self]
    rfl
  · decide

set_option maxHeartbeats 1000000 in
theorem checkStrategyProfitTargets_ne_trailing (strategy : String) (pnl : ℚ) :
    (checkStrategyProfitTargets strategy pnl).reason ≠ .trailingStop := by
  unfold checkStrategyProfitTargets
  split_ifs <;> decide

/-- Claim C4: the trailing stop never fires while the recorded peak PnL% is
at most 5; given that neither a profit target nor the hard stop-loss already
triggered (and a positive cost basis), it fires exactly when
`peak - current > threshold(strategy)`; and the per-strategy thresholds are
8 for sniper and swing_trader, 15 for diamond_hands, 12 for degen_ape and
10 for every other strategy string. -/
theorem C4_trailing_stop (strategy : String) (costBasis unrealizedPnl : ℤ)
    (trailing : TrailingState) (dur : ℚ) :
    (trailing.peakPnlPct ≤ 5 →
      (evaluateSellCondition strategy costBasis unrealizedPnl trailing dur).reason ≠
        .trailingStop) ∧
    (0 < costBasis →
      (checkStrategyProfitTargets strategy (pnlPercentOf unrealizedPnl costBasis)).sell
        = false →
      ¬ (pnlPercentOf unrealizedPnl costBasis ≤ stopLossOf strategy) →
      ((evaluateSellCondition strategy costBasis unrealizedPnl trailing dur).reason =
          .trailingStop ↔
        trailing.peakPnlPct > 5 ∧
          trailing.peakPnlPct - pnlPercentOf unrealizedPnl costBasis >
            getTrailingStopThreshold strategy)) ∧
    (getTrailingStopThreshold "sniper" = 8 ∧ getTrailingStopThreshold "swing_trader" = 8 ∧
      getTrailingStopThreshold "diamond_hands" = 15 ∧
      getTrailingStopThreshold "degen_ape" = 12 ∧
      (strategy ∉ (["sniper", "swing_trader", "diamond_hands", "degen_ape"] : List String) →
        getTrailingStopThreshold strategy = 10)) := by
  refine ⟨?_, ?_, ?_⟩
  · intro hpeak
    unfold evaluateSellCondition
    by_cases h1 : costBasis ≤ 0
    · rw [if_pos h1]
      exact fun hr => by cases hr
    rw [if_neg h1]
    by_cases h2 : (checkStrategyProfitTargets strategy
        (pnlPercentOf unrealizedPnl costBasis)).sell = true
    · rw [if_pos h2]
      exact checkStrategyProfitTargets_ne_trailing strategy _
    rw [if_neg h2]
    by_cases h3 : pnlPercentOf unrealizedPnl costBasis ≤ stopLossOf strategy
    · rw [if_pos h3]
      exact fun hr => by cases hr
    rw [if_neg h3]
    have h4 : ¬ (trailing.peakPnlPct > 5 ∧
        trailing.peakPnlPct - pnlPercentOf unrealizedPnl costBasis >
          getTrailingStopThreshold strategy) := by
      rintro ⟨hgt, -⟩
      exact absurd hgt (not_lt.mpr hpeak)
    rw [if_neg h4]
    split_ifs <;> simp [holdDecision]
  · intro hcb hpt hsl
    unfold evaluateSellCondition
    rw [if_neg (not_le.mpr hcb), if_neg (by simp [hpt]), if_neg hsl]
    constructor
    · intro hr
      by_contra hc
      rw [if_neg hc] at hr
      split_ifs at hr
      all_goals simp_all [holdDecision]
    · intro hc
      rw [if_pos hc]
  · refine ⟨rfl, rfl, rfl, rfl, ?_⟩
    intro hs
    simp only [List.mem_cons, List.not_mem_nil, or_false, not_or] at hs
    obtain ⟨hn1, hn2, hn3, hn4⟩ := hs
    unfold getTrailingStopThreshold
    simp only [if_neg hn1, if_neg hn2, if_neg hn3, if_neg hn4]
    split_ifs <;> rfl

/-- Claim C4 witness: a sniper holding with cost basis 100, unrealized PnL 2
(+2%), peak +15%: the profit targets and stop-loss do not trigger, and the
trailing stop fires exactly because the 13-point drop exceeds the sniper
threshold 8. -/
theorem C4_trailing_stop_witness :
    (0 : ℤ) < 100 ∧
    (checkStrategyProfitTargets "sniper" (pnlPercentOf 2 100)).sell = false ∧
    ¬ (pnlPercentOf 2 100 ≤ stopLossOf "sniper") ∧
    ((evaluateSellCondition "sniper" 100 2 ⟨15, 0⟩ 1).reason = .trailingStop ↔
      (15 : ℚ) > 5 ∧ (15 : ℚ) - pnlPercentOf 2 100 > getTrailingStopThreshold "sniper") := by
  have hp : pnlPercentOf 2 100 = 2 := by
    unfold pnlPercentOf
    rw [show ((2 : ℤ) * 10000).tdiv 100 = 200 from by decide]
    norm_num
  have hpt : (checkStrategyProfitTargets "sniper" (pnlPercentOf 2 100)).sell = false := by
    rw [hp]
    unfold checkStrategyProfitTargets
    norm_num [holdDecision]
  have hsl : ¬ (pnlPercentOf 2 100 ≤ stopLossOf "sniper") := by
    rw [hp]
    unfold stopLossOf
    norm_num
  have h := C4_trailing_stop "sniper" 100 2 ⟨15, 0⟩ 1
  exact ⟨by norm_num, hpt, hsl, h.2.1 (by norm_num) hpt hsl⟩

/-- Claim C3 counterexample: at wei granularity the implied PnL% is not
numerically unchanged by a partial sale. Holding of 2 units with cost basis
3, mark price 2: PnL% is 100/3; selling 1 unit truncates the proportional
cost to 1, leaving cost basis 2 for 1 unit, whose PnL% is 0. -/
theorem C3_partial_sell_counterexample :
    applySell ⟨2, 3⟩ 1 = some ⟨1, 2⟩ ∧
    impliedPnlPct 2 2 3 = 100 / 3 ∧
    impliedPnlPct 2 1 2 = 0 ∧
    (100 / 3 : ℚ) ≠ 0 := by
  refine ⟨by decide, by norm_num [impliedPnlPct], by norm_num [impliedPnlPct], by norm_num⟩

theorem int_tdiv_le_self (a b c : ℤ) (ha : 0 ≤ a) (hb : 0 < b) (hab : a ≤ b * c) :
    a.tdiv b ≤ c := by
  rw [Int.tdiv_eq_ediv ha hb.le]
  calc a / b ≤ (b * c) / b := Int.ediv_le_ediv hb hab
    _ = c := Int.mul_ediv_cancel_left c hb.ne'

/-- Claim C3 (amended): a partial sell reduces the cost basis by exactly
`(costBasis * soldAmount) / totalAmountBeforeSale` in the code's truncating
BigInt division; whenever that division is exact
(`totalAmountBeforeSale ∣ costBasis * soldAmount`) the remaining Holding's
implied PnL% is numerically unchanged; selling 0 is a no-op on the Holding;
selling 100% deletes the Holding exactly as a full exit does. -/
theorem partialRemainingCost_eq (cost sold amt : ℤ) (hcost : 0 ≤ cost)
    (hsold : 0 ≤ sold) (hle : sold ≤ amt) (hamt : 0 < amt) :
    partialRemainingCost cost sold amt = cost - (cost * sold).tdiv amt := by
  have hnn : 0 ≤ cost * sold := mul_nonneg hcost hsold
  have hub : (cost * sold).tdiv amt ≤ cost :=
    int_tdiv_le_self (cost * sold) amt cost hnn hamt (by nlinarith)
  unfold partialRemainingCost
  simp only [if_pos hamt]
  split_ifs with hpos
  · rfl
  · omega

theorem partialRemainingCost_zero (cost amt : ℤ) (hcost : 0 ≤ cost) (hamt : 0 < amt) :
    partialRemainingCost cost 0 amt = cost := by
  unfold partialRemainingCost
  simp only [if_pos hamt, mul_zero, Int.zero_tdiv, sub_zero]
  split_ifs with hpos
  · rfl
  · omega

theorem C3_partial_sell (h : Holding) (sold : ℤ) (price : ℚ) :
    (0 ≤ h.costBasis → 0 ≤ sold → sold ≤ h.amount → 0 < h.amount →
      ∀ h2 : Holding, applySell h sold = some h2 →
        h.costBasis - h2.costBasis = (h.costBasis * sold).tdiv h.amount) ∧
    (0 < h.costBasis → 0 ≤ sold → sold < h.amount → h.amount ∣ h.costBasis * sold →
      ∀ h2 : Holding, applySell h sold = some h2 →
        impliedPnlPct price h2.amount h2.costBasis =
          impliedPnlPct price h.amount h.costBasis) ∧
    (0 ≤ h.costBasis → 0 < h.amount → applySell h 0 = some h) ∧
    (applySell h h.amount = none) := by
  obtain ⟨amt, cost⟩ := h
  simp only [Holding.mk.injEq] at *
  refine ⟨?_, ?_, ?_, ?_⟩
  · intro hcost hsold hle hamt h2 happ
    rw [applySell, if_neg (by intro hfull; exact absurd happ (by simp [applySell, hfull]))] at happ
    rw [Option.some.injEq] at happ
    rw [← happ]
    simp only [partialRemainingCost_eq cost sold amt hcost hsold hle hamt]
    ring
  · intro hcost hsold hlt hdvd h2 happ
    have hamt : (0 : ℤ) < amt := lt_of_le_of_lt hsold hlt
    have hfull : sold ≠ amt := ne_of_lt hlt
    rw [applySell, if_neg hfull, Option.some.injEq] at happ
    have hk : (((cost * sold).tdiv amt : ℤ) : ℚ) = (cost : ℚ) * (sold : ℚ) / (amt : ℚ) := by
      have hmul : (cost * sold).tdiv amt * amt = cost * sold :=
        Int.tdiv_mul_cancel hdvd
      have hcastQ : (((cost * sold).tdiv amt : ℤ) : ℚ) * (amt : ℚ) =
          (cost : ℚ) * (sold : ℚ) := by
        exact_mod_cast congrArg (fun z : ℤ => (z : ℚ)) hmul
      have hamtQ : (amt : ℚ) ≠ 0 := Int.cast_ne_zero.mpr (ne_of_gt hamt)
      field_simp
      linarith [hcastQ]
    rw [← happ]
    simp only [partialRemainingCost_eq cost sold amt (le_of_lt hcost) hsold (le_of_lt hlt) hamt]
    unfold impliedPnlPct
    have hamtQ : (amt : ℚ) ≠ 0 := Int.cast_ne_zero.mpr (ne_of_gt hamt)
    have hcostQ : (cost : ℚ) ≠ 0 := Int.cast_ne_zero.mpr (ne_of_gt hcost)
    have hremne : ((amt : ℚ) - (sold : ℚ)) ≠ 0 := by
      have hsq : (sold : ℚ) < (amt : ℚ) := by exact_mod_cast hlt
      linarith
    have hnewcost : ((cost - (cost * sold).tdiv amt : ℤ) : ℚ) =
        (cost : ℚ) * ((amt : ℚ) - (sold : ℚ)) / (amt : ℚ) := by
      push_cast
      rw [hk]
      field_simp
      ring
    rw [hnewcost]
    push_cast
    field_simp
    ring
  · intro hcost hamt
    rw [applySell, if_neg (by omega : ¬ (0 : ℤ) = amt)]
    rw [partialRemainingCost_zero cost amt hcost hamt]
    simp
  · rw [applySell, if_pos rfl]

/-- Claim C3 witness: Holding of 4 units at cost basis 2, mark price 1,
selling 2 units (an exact 50% where the proportional division divides):
the cost basis drops by exactly 1, the implied PnL% (100%) is unchanged,
selling 0 is a no-op, and selling all 4 units deletes the Holding. -/
theorem C3_partial_sell_witness :
    (applySell ⟨4, 2⟩ 2 = some ⟨2, 1⟩ ∧ (2 : ℤ) - 1 = ((2 : ℤ) * 2).tdiv 4) ∧
    (impliedPnlPct 1 2 1 = impliedPnlPct 1 4 2) ∧
    (applySell ⟨4, 2⟩ 0 = some ⟨4, 2⟩) ∧
    (applySell ⟨4, 2⟩ 4 = none) := by
  have h := C3_partial_sell ⟨4, 2⟩ 2 1
  have h0 := C3_partial_sell ⟨4, 2⟩ 0 1
  have happ : applySell ⟨4, 2⟩ 2 = some ⟨2, 1⟩ := by decide
  refine ⟨⟨happ, ?_⟩, ?_, ?_, ?_⟩
  · exact h.1 (by norm_num) (by norm_num) (by norm_num) (by norm_num) ⟨2, 1⟩ happ
  · exact h.2.1 (by norm_num) (by norm_num) (by norm_num) ⟨1, by norm_num⟩ ⟨2, 1⟩ happ
  · exact h0.2.2.1 (by norm_num) (by norm_num)
  · exact h.2.2.2

/-- Claim C10: for every learning profile and every confidence value,
including confidence outside 0-100, the recommended position size is
between 2 and 15 MON inclusive. -/
theorem C10_position_size_bounds (profile : AgentLearningProfile) (confidence : ℚ) :
    2 ≤ getRecommendedPositionSize profile confidence ∧
    getRecommendedPositionSize profile confidence ≤ 15 := by
  unfold getRecommendedPositionSize
  constructor
  · exact le_min (by norm_num) (le_max_left 2 _)
  · exact min_le_left 15 _

/-- Claim C9 counterexample: `getVolumeTrend` has no such sentinel. On the
short input `[1, 2, 3]` it returns `stable`, and on the adequate input
`[10, 10, 10, 10, 10, 10]` (six samples of flat volume) it also computes
`stable`, so the short-input value is indistinguishable from a computed
result. -/
theorem C9_volume_trend_counterexample : ¬ volumeTrendSentinelProperty := by
  rintro ⟨s, hshort, hlong⟩
  have h1 : getVolumeTrend [1, 2, 3] = s := hshort [1, 2, 3] (by simp)
  have h2 : getVolumeTrend [10, 10, 10, 10, 10, 10] ≠ s :=
    hlong [10, 10, 10, 10, 10, 10] (by simp)
  have e1 : getVolumeTrend [1, 2, 3] = .stable := by
    unfold getVolumeTrend
    norm_num
  have e2 : getVolumeTrend [10, 10, 10, 10, 10, 10] = .stable := by
    unfold getVolumeTrend
    norm_num
  rw [e1] at h1
  rw [e2] at h2
  exact h2 h1

/-- Claim C9 (amended): RSI, SMA, EMA and volatility return the `null`
sentinel whenever the input series is shorter than the required window, and
return a computed value on any adequately long input (volatility also
returns the sentinel when no valid return can be formed, e.g. all previous
prices nonpositive); the volume-trend classifier instead returns the
ordinary value `"stable"` on short input, indistinguishable from a computed
stable trend. -/
theorem C9_insufficient_data_sentinels :
    (∀ (prices : List ℚ) (period : ℕ), prices.length < period + 1 →
      calculateRSI prices period = none) ∧
    (∀ (prices : List ℚ) (period : ℕ), period + 1 ≤ prices.length →
      (calculateRSI prices period).isSome) ∧
    (∀ (prices : List ℚ) (period : ℕ), prices.length < period →
      calculateSMA prices period = none) ∧
    (∀ (prices : List ℚ) (period : ℕ), period ≤ prices.length →
      (calculateSMA prices period).isSome) ∧
    (∀ (prices : List ℚ) (period : ℕ), prices.length < period →
      calculateEMA prices period = none) ∧
    (∀ (prices : List ℚ) (period : ℕ), period ≤ prices.length →
      (calculateEMA prices period).isSome) ∧
    (∀ prices : List ℚ, prices.length < 3 → calculateVolatility prices = none) ∧
    (∀ volumes : List ℚ, volumes.length < 4 → getVolumeTrend volumes = .stable) := by
  refine ⟨?_, ?_, ?_, ?_, ?_, ?_, ?_, ?_⟩
  · intro prices period hlt
    unfold calculateRSI
    rw [if_pos hlt]
  · intro prices period hle
    unfold calculateRSI
    rw [if_neg (not_lt.mpr hle)]
    dsimp only
    split_ifs <;> simp
  · intro prices period hlt
    unfold calculateSMA
    rw [if_pos hlt]
  · intro prices period hle
    unfold calculateSMA
    rw [if_neg (not_lt.mpr hle)]
    simp
  · intro prices period hlt
    unfold calculateEMA
    rw [if_pos hlt]
  · intro prices period hle
    unfold calculateEMA
    rw [if_neg (not_lt.mpr hle)]
    simp
  · intro prices hlt
    unfold calculateVolatility calculateVolatilityVar
    rw [if_pos hlt]
    rfl
  · intro volumes hlt
    unfold getVolumeTrend
    rw [if_pos hlt]

/-- Claim C9 witness: the sentinels at concrete short inputs ([1, 2] has
fewer than 15, 5, 20, or 3 samples; [1, 2, 3] fewer than 4) and computed
values at concrete adequate inputs. -/
theorem C9_insufficient_data_sentinels_witness :
    calculateRSI [1, 2] 14 = none ∧
    (calculateRSI [1, 2, 3, 4, 5] 4).isSome ∧
    calculateSMA [1, 2] 5 = none ∧
    (calculateSMA [1, 2, 3, 4, 5] 5).isSome ∧
    calculateEMA [1, 2] 20 = none ∧
    (calculateEMA [1, 2, 3, 4, 5] 5).isSome ∧
    calculateVolatility [1, 2] = none ∧
    getVolumeTrend [1, 2, 3] = .stable := by
  have h := C9_insufficient_data_sentinels
  exact ⟨h.1 [1, 2] 14 (by simp),
    h.2.1 [1, 2, 3, 4, 5] 4 (by simp),
    h.2.2.1 [1, 2] 5 (by simp),
    h.2.2.2.1 [1, 2, 3, 4, 5] 5 (by simp),
    h.2.2.2.2.1 [1, 2] 20 (by simp),
    h.2.2.2.2.2.1 [1, 2, 3, 4, 5] 5 (by simp),
    h.2.2.2.2.2.2.1 [1, 2] (by simp),
    h.2.2.2.2.2.2.2 [1, 2, 3] (by simp)⟩

/-- Claim C5 counterexample: a 5-token batch with bullScore = bearScore = 0
is classified sideways with confidence `max 30 (70 − 0) = 70`, but the
claim's formula `clamp(50 + |0 − 0|, 30, 90)` gives 50. -/
theorem C5_regime_confidence_counterexample :
    (detectMarketRegime 10000 c5batch).regime = .sideways ∧
    (detectMarketRegime 10000 c5batch).confidence = 70 ∧
    regimeScores 10000 c5batch = (0, 0) ∧
    claimedConfidence 0 0 = 50 ∧
    (detectMarketRegime 10000 c5batch).confidence ≠ claimedConfidence 0 0 := by
  have hs : regimeScores 10000 c5batch = (0, 0) := by
    unfold regimeScores regimeAgg c5batch c5pair withMarketList avgQ obGt obLt
    norm_num [List.filterMap, List.filter]
  have hlen : ¬ ((withMarketList c5batch).length < 5) := by
    unfold withMarketList c5batch c5pair
    norm_num [List.filterMap]
  have hd : detectMarketRegime 10000 c5batch =
      { regime := .sideways, confidence := max 30 (70 - |(0 : ℤ) - 0|),
        avgPriceChange1h := (regimeAgg 10000 c5batch).avg1h,
        avgPriceChange24h := (regimeAgg 10000 c5batch).avg24h,
        positiveTokenPct := (regimeAgg 10000 c5batch).breadth,
        avgVolume := (regimeAgg 10000 c5batch).avgVolume,
        newTokenRate := (regimeAgg 10000 c5batch).newTokenRate,
        reasons := ["REGIME: Sideways/choppy market"] } := by
    unfold detectMarketRegime
    rw [if_neg hlen]
    dsimp only
    rw [hs]
    norm_num
  refine ⟨by rw [hd], by rw [hd]; norm_num, hs, by unfold claimedConfidence; norm_num, ?_⟩
  rw [hd]
  unfold claimedConfidence
  norm_num

/-- Claim C5 (amended): with fewer than 5 tokens carrying market data the
detector returns sideways with confidence 20 and the explicit
insufficient-data reason (and never throws: it is a total function); with 5
or more, the regime is bull iff bullScore > bearScore + 15, bear iff
bearScore > bullScore + 15, else sideways; in the bull and bear cases the
confidence equals the claimed `clamp(50 + |bull − bear|, 30, 90)`, while in
the sideways case it is `max 30 (70 − |bull − bear|)`. -/
theorem C5_market_regime (now : ℤ) (pairs : List RegimePair) :
    ((withMarketList pairs).length < 5 →
      (detectMarketRegime now pairs).regime = .sideways ∧
      (detectMarketRegime now pairs).confidence = 20 ∧
      "Insufficient data for regime detection" ∈ (detectMarketRegime now pairs).reasons) ∧
    (5 ≤ (withMarketList pairs).length →
      ((detectMarketRegime now pairs).regime = .bull ↔
        (regimeScores now pairs).2 + 15 < (regimeScores now pairs).1) ∧
      ((detectMarketRegime now pairs).regime = .bear ↔
        (regimeScores now pairs).1 + 15 < (regimeScores now pairs).2) ∧
      ((regimeScores now pairs).2 + 15 < (regimeScores now pairs).1 →
        (detectMarketRegime now pairs).confidence =
          claimedConfidence (regimeScores now pairs).1 (regimeScores now pairs).2) ∧
      ((regimeScores now pairs).1 + 15 < (regimeScores now pairs).2 →
        (detectMarketRegime now pairs).confidence =
          claimedConfidence (regimeScores now pairs).1 (regimeScores now pairs).2) ∧
      (¬ ((regimeScores now pairs).2 + 15 < (regimeScores now pairs).1) →
        ¬ ((regimeScores now pairs).1 + 15 < (regimeScores now pairs).2) →
        (detectMarketRegime now pairs).regime = .sideways ∧
        (detectMarketRegime now pairs).confidence =
          max 30 (70 - |(regimeScores now pairs).1 - (regimeScores now pairs).2|))) := by
  constructor
  · intro hlt
    unfold detectMarketRegime
    rw [if_pos hlt]
    exact ⟨rfl, rfl, by simp [insufficientRegime]⟩
  · intro hge
    have hnlt : ¬ ((withMarketList pairs).length < 5) := not_lt.mpr hge
    set b := (regimeScores now pairs).1 with hb
    set r := (regimeScores now pairs).2 with hr
    by_cases hbull : r + 15 < b
    · have hd : (detectMarketRegime now pairs).regime = .bull ∧
          (detectMarketRegime now pairs).confidence = min 90 (50 + b - r) := by
        unfold detectMarketRegime
        rw [if_neg hnlt]
        dsimp only
        rw [if_pos (by rw [← hb, ← hr]; exact hbull)]
        exact ⟨rfl, rfl⟩
      have hcc : claimedConfidence b r = min 90 (50 + b - r) := by
        unfold claimedConfidence
        rw [abs_of_pos (by omega : (0 : ℤ) < b - r)]
        omega
      refine ⟨⟨fun _ => hbull, fun _ => hd.1⟩, ⟨?_, ?_⟩, fun _ => by rw [hd.2, hcc],
        fun hbear => absurd hbear (by omega), fun hnb _ => absurd hbull hnb⟩
      · rw [hd.1]
        intro hc
        cases hc
      · intro hbear
        omega
    · by_cases hbear : b + 15 < r
      · have hd : (detectMarketRegime now pairs).regime = .bear ∧
            (detectMarketRegime now pairs).confidence = min 90 (50 + r - b) := by
          unfold detectMarketRegime
          rw [if_neg hnlt]
          dsimp only
          rw [if_neg (by rw [← hb, ← hr]; exact hbull),
            if_pos (by rw [← hb, ← hr]; exact hbear)]
          exact ⟨rfl, rfl⟩
        have hcc : claimedConfidence b r = min 90 (50 + r - b) := by
          unfold claimedConfidence
          rw [abs_of_neg (by omega : b - r < 0)]
          omega
        refine ⟨⟨?_, fun hc => absurd hc hbull⟩, ⟨fun _ => hbear, fun _ => hd.1⟩,
          fun hb2 => absurd hb2 hbull, fun _ => by rw [hd.2, hcc],
          fun _ hnb => absurd hbear hnb⟩
        rw [hd.1]
        intro hc
        cases hc
      · have hd : (detectMarketRegime now pairs).regime = .sideways ∧
            (detectMarketRegime now pairs).confidence = max 30 (70 - |b - r|) := by
          unfold detectMarketRegime
          rw [if_neg hnlt]
          dsimp only
          rw [if_neg (by rw [← hb, ← hr]; exact hbull),
            if_neg (by rw [← hb, ← hr]; exact hbear)]
          exact ⟨rfl, rfl⟩
        refine ⟨⟨?_, fun hc => absurd hc hbull⟩, ⟨?_, fun hc => absurd hc hbear⟩,
          fun hb2 => absurd hb2 hbull, fun hb2 => absurd hb2 hbear,
          fun _ _ => ⟨hd.1, hd.2⟩⟩
        · rw [hd.1]
          intro hc
          cases hc
        · rw [hd.1]
          intro hc
          cases hc

/-- Claim C5 witness: the insufficient-data part on the empty batch; the
main part on the concrete 5-token batch `c5batch`, whose scores tie at 0
(sideways, confidence 70). -/
theorem C5_market_regime_witness :
    ((detectMarketRegime 0 []).regime = .sideways ∧
      (detectMarketRegime 0 []).confidence = 20 ∧
      "Insufficient data for regime detection" ∈ (detectMarketRegime 0 []).reasons) ∧
    ((detectMarketRegime 10000 c5batch).regime = .sideways ∧
      (detectMarketRegime 10000 c5batch).confidence =
        max 30 (70 - |(regimeScores 10000 c5batch).1 - (regimeScores 10000 c5batch).2|)) := by
  have h1 := (C5_market_regime 0 []).1 (by simp [withMarketList])
  have hlen : 5 ≤ (withMarketList c5batch).length := by
    unfold withMarketList c5batch c5pair
    norm_num [List.filterMap]
  have hs : regimeScores 10000 c5batch = (0, 0) := by
    unfold regimeScores regimeAgg c5batch c5pair withMarketList avgQ obGt obLt
    norm_num [List.filterMap, List.filter]
  have h2 := ((C5_market_regime 10000 c5batch).2 hlen).2.2.2.2
    (by rw [hs]; norm_num) (by rw [hs]; norm_num)
  exact ⟨h1, h2⟩

theorem buildSignal_score_bounds (ctx : TokenContext) (s : ℤ) (r : List String) :
    0 ≤ (buildSignal ctx s r).score ∧ (buildSignal ctx s r).score ≤ 100 :=
  ⟨le_max_left 0 _, max_le (by norm_num) (min_le_left 100 s)⟩

theorem scoreSniper_bounds (ctx : TokenContext) :
    0 ≤ (scoreSniper ctx).score ∧ (scoreSniper ctx).score ≤ 100 := by
  unfold scoreSniper
  exact buildSignal_score_bounds ctx (sniperRaw ctx).1 (sniperRaw ctx).2

theorem scoreAlphaHunter_bounds (ctx : TokenContext) :
    0 ≤ (scoreAlphaHunter ctx).score ∧ (scoreAlphaHunter ctx).score ≤ 100 := by
  unfold scoreAlphaHunter
  exact buildSignal_score_bounds ctx (alphaHunterRaw ctx).1 (alphaHunterRaw ctx).2

theorem scoreDiamondHands_bounds (ctx : TokenContext) :
    0 ≤ (scoreDiamondHands ctx).score ∧ (scoreDiamondHands ctx).score ≤ 100 := by
  unfold scoreDiamondHands
  exact buildSignal_score_bounds ctx (diamondHandsRaw ctx).1 (diamondHandsRaw ctx).2

theorem scoreSwingTrader_bounds (ctx : TokenContext) :
    0 ≤ (scoreSwingTrader ctx).score ∧ (scoreSwingTrader ctx).score ≤ 100 := by
  unfold scoreSwingTrader
  exact buildSignal_score_bounds ctx (swingTraderRaw ctx).1 (swingTraderRaw ctx).2

theorem scoreDegenApe_bounds (ctx : TokenContext) :
    0 ≤ (scoreDegenApe ctx).score ∧ (scoreDegenApe ctx).score ≤ 100 := by
  unfold scoreDegenApe
  exact buildSignal_score_bounds ctx (degenApeRaw ctx).1 (degenApeRaw ctx).2

theorem scoreVolumeWatcher_bounds (ctx : TokenContext) :
    0 ≤ (scoreVolumeWatcher ctx).score ∧ (scoreVolumeWatcher ctx).score ≤ 100 := by
  unfold scoreVolumeWatcher
  exact buildSignal_score_bounds ctx (volumeWatcherRaw ctx).1 (volumeWatcherRaw ctx).2

theorem scoreTrendFollower_bounds (ctx : TokenContext) :
    0 ≤ (scoreTrendFollower ctx).score ∧ (scoreTrendFollower ctx).score ≤ 100 := by
  unfold scoreTrendFollower
  exact buildSignal_score_bounds ctx (trendFollowerRaw ctx).1 (trendFollowerRaw ctx).2

theorem scoreContrarian_bounds (ctx : TokenContext) :
    0 ≤ (scoreContrarian ctx).score ∧ (scoreContrarian ctx).score ≤ 100 := by
  unfold scoreContrarian
  exact buildSignal_score_bounds ctx (contrarianRaw ctx).1 (contrarianRaw ctx).2

/-- Claim C1: for every token context (any market snapshot, age, indicators,
whale data and regime, including missing market data, zero volume and zero
holders) and every strategy scorer of the dispatch table, a `MarketSignal`
is produced (each scorer is a total function) and its score lies in
[0, 100]. -/
theorem C1_signal_score_in_range (name : String) (f : TokenContext → MarketSignal)
    (ctx : TokenContext) (h : STRATEGY_SCORERS.lookup name = some f) :
    0 ≤ (f ctx).score ∧ (f ctx).score ≤ 100 := by
  simp only [STRATEGY_SCORERS, List.lookup] at h
  repeat' split at h
  all_goals cases h
  · exact scoreAlphaHunter_bounds ctx
  · exact scoreDiamondHands_bounds ctx
  · exact scoreSwingTrader_bounds ctx
  · exact scoreDegenApe_bounds ctx
  · exact scoreVolumeWatcher_bounds ctx
  · exact scoreTrendFollower_bounds ctx
  · exact scoreContrarian_bounds ctx
  · exact scoreSniper_bounds ctx

/-- Claim C1 witness: the sniper scorer (looked up from the dispatch table)
on the adversarial no-market-data context still yields a signal with a
score in [0, 100]. -/
theorem C1_signal_score_in_range_witness :
    STRATEGY_SCORERS.lookup "sniper" = some scoreSniper ∧
    0 ≤ (scoreSniper c1AdversarialCtx).score ∧
    (scoreSniper c1AdversarialCtx).score ≤ 100 := by
  have hlk : STRATEGY_SCORERS.lookup "sniper" = some scoreSniper := by rfl
  exact ⟨hlk, C1_signal_score_in_range "sniper" scoreSniper c1AdversarialCtx hlk⟩

/-- Claim C6: when the advisory call fails or times out, the deterministic
fallback approves exactly when the raw signal score is at least 85; in
particular a failing call with signal score 92 is approved and one with
score 70 is rejected. -/
theorem C6_llm_fallback :
    (∀ signal : MarketSignal,
      (confirmTradeWithLLM signal .failed).approved = true ↔ 85 ≤ signal.score) ∧
    (confirmTradeWithLLM (c6Signal 92) .failed).approved = true ∧
    (confirmTradeWithLLM (c6Signal 70) .failed).approved = false := by
  refine ⟨fun signal => ?_, by decide, by decide⟩
  unfold confirmTradeWithLLM
  simp

/-- Claim C7: a token whose holder count is below the 30-holder floor is
rejected by the quality filter with score 0 and a reason regardless of any
other metric, and the scan loop never reaches the strategy scorer for it in
that cycle (for any strategy, any filter inputs, any time). -/
theorem C7_quality_floor (now : ℤ) (strategy : String) (token : RecentToken)
    (mi : MarketInfo) (hmi : token.market_info = some mi) (hh : mi.holder_count < 30) :
    ((checkTokenQuality now token).passed = false ∧
      (checkTokenQuality now token).score = 0 ∧
      (checkTokenQuality now token).reason.isSome) ∧
    (∀ (blacklisted deadBlacklisted windowAllowed : Bool)
      (cachedMarket : Option TokenMarketData) (curveProgress : Option ℚ)
      (technical : Option TechnicalIndicators) (whaleData : Option WhaleAnalysis),
      scanStep now strategy
        ⟨token, blacklisted, deadBlacklisted, cachedMarket, curveProgress,
          technical, whaleData, windowAllowed⟩ = none) := by
  have hq : (checkTokenQuality now token).passed = false ∧
      (checkTokenQuality now token).score = 0 ∧
      (checkTokenQuality now token).reason.isSome := by
    unfold checkTokenQuality
    rw [hmi]
    dsimp only
    split_ifs with h1 <;> simp_all
  refine ⟨hq, ?_⟩
  intro blacklisted deadBlacklisted windowAllowed cachedMarket curveProgress technical
    whaleData
  unfold scanStep
  cases blacklisted with
  | true => rfl
  | false =>
    simp only [Bool.false_eq_true, if_false, hmi]
    cases deadBlacklisted with
    | true => rfl
    | false =>
      simp only [Bool.false_eq_true, if_false]
      rw [if_pos (by simp [hq.1])]

/-- Claim C7 witness: the spec's scenario token - reserve 10 MON, 5
holders, 30 minutes old, healthy price - is rejected with score 0 and the
scan step never reaches the scorer. -/
theorem C7_quality_floor_witness :
    ((checkTokenQuality 1800 c7Token).passed = false ∧
      (checkTokenQuality 1800 c7Token).score = 0 ∧
      (checkTokenQuality 1800 c7Token).reason.isSome) ∧
    scanStep 1800 "sniper" ⟨c7Token, false, false, none, none, none, none, true⟩ = none := by
  have h := C7_quality_floor 1800 "sniper" c7Token c7Market rfl (by norm_num [c7Market])
  exact ⟨h.1, h.2 false false true none none none none⟩

end Monkey
